import Mathlib

/-!
Verification of the Generation–Render–Repair pipeline of the
manimAnimationAgent repository against its natural-language specification.

The Python sources are shallowly embedded: strings are `List Char`, the
filesystem is an association list from paths to contents, the generative
text model is an oracle (a list of pending responses consumed by each
call), and Python exceptions are `Except` values.  Pure string-rewriting
helpers (regex searches and substitutions) are hand-compiled to explicit
scanners that realise the leftmost / greedy / lazy semantics of the
specific patterns appearing in the source; each scanner's doc comment
names the pattern it implements.
-/

namespace ManimAgent

/-- Strings of the embedded program, as lists of characters. -/
abbrev Str := List Char

/-- Build an embedded string from a Lean string literal. -/
def lit (s : String) : Str := s.data

/-- `strStartsWith s p` : does `s` start with `p`? -/
def strStartsWith : Str → Str → Bool
  | _, [] => true
  | [], _ :: _ => false
  | c :: s, p :: ps => c == p && strStartsWith s ps

/-- Index of the first occurrence of `pat` in `s` (Python `str.find` when the
pattern occurs; `none` otherwise). -/
def strFind (pat : Str) : Str → Option Nat
  | [] => if strStartsWith [] pat then some 0 else none
  | c :: t =>
    if strStartsWith (c :: t) pat then some 0
    else (strFind pat t).map (· + 1)

/-- Python's substring test `pat in s`. -/
def strContains (s pat : Str) : Bool := (strFind pat s).isSome

/-- One step of Python `str.replace`: scan left to right, replacing each
non-overlapping occurrence of `pat` by `rep`.  Fuel-indexed for totality;
`replaceAll` supplies enough fuel. -/
def replaceAllF (pat rep : Str) : Nat → Str → Str
  | 0, s => s
  | _ + 1, [] => []
  | fuel + 1, c :: t =>
    if strStartsWith (c :: t) pat && !pat.isEmpty then
      rep ++ replaceAllF pat rep fuel ((c :: t).drop pat.length)
    else
      c :: replaceAllF pat rep fuel t

/-- Python `s.replace(pat, rep)` for a non-empty pattern. -/
def replaceAll (pat rep s : Str) : Str := replaceAllF pat rep s.length s

/-- Python regex `\s` on the ASCII range: space, tab, newline, carriage
return, vertical tab, form feed. -/
def pyIsSpace (c : Char) : Bool :=
  c == ' ' || c == '\t' || c == '\n' || c == '\r' ||
  c == Char.ofNat 11 || c == Char.ofNat 12

/-- Python regex `\w` (ASCII range): letters, digits, underscore. -/
def pyIsWord (c : Char) : Bool := c.isAlphanum || c == '_'

/-- Python `str.strip()` (both-ends whitespace removal). -/
def strStrip (s : Str) : Str :=
  ((s.dropWhile pyIsSpace).reverse.dropWhile pyIsSpace).reverse

/-- Python `" ".join(parts)`. -/
def joinSpace : List Str → Str
  | [] => []
  | [p] => p
  | p :: q :: r => p ++ ' ' :: joinSpace (q :: r)

/-- Python `str.lower()` restricted to ASCII (sufficient for the embedded
call sites, whose patterns are ASCII). -/
def strLower (s : Str) : Str := s.map Char.toLower

/-!
## Pattern Memory (C9)

Embeds `AppwriteAgentMemory` from
`appwrite_functions/video_generation/src/core/appwrite_agent_memory.py`.
The Appwrite database behind it (`AppwriteVideoManager`, whose module is
not part of the sources) is modelled from the spec: a store of FixRecords
supporting append (`store_agent_memory`) and scoped lookup
(`search_agent_memory`), with a call counter recording every backend
round-trip.
-/

/-- A FixRecord as persisted by Pattern Memory (spec §3) / the argument
tuple of `store_error_fix`. -/
structure MemRecord where
  error_message : Str
  original_code : Str
  fixed_code : Str
  topic : Str
  scene_type : Str
  fix_method : Str
deriving Repr, DecidableEq

/-- State of the Appwrite backend: persisted records plus a counter of
backend calls made (any call, read or write). -/
structure MemBackend where
  records : List MemRecord
  calls : Nat
deriving Repr, DecidableEq

/-- `AppwriteAgentMemory`: the `enabled` flag mirrors
`appwrite_manager.enabled` captured in `__init__`. -/
structure AppwriteAgentMemory where
  enabled : Bool
deriving Repr, DecidableEq

/-- Modelled from the spec: the backend write
`AppwriteVideoManager.store_agent_memory` (module absent from the
sources) appends one FixRecord and reports success. -/
def store_agent_memory (st : MemBackend) (r : MemRecord) : Bool × MemBackend :=
  (true, ⟨st.records ++ [r], st.calls + 1⟩)

/-- Modelled from the spec: the backend lookup
`AppwriteVideoManager.search_agent_memory` (module absent from the
sources) returns up to `limit` records scoped by topic and scene type. -/
def search_agent_memory (st : MemBackend) (topic scene_type : Str) (limit : Nat) :
    List MemRecord × MemBackend :=
  ((st.records.filter fun r => r.topic == topic && r.scene_type == scene_type).take limit,
   ⟨st.records, st.calls + 1⟩)

/-- `AppwriteAgentMemory.store_error_fix` (appwrite_agent_memory.py lines
51–93): when memory is disabled, return `False` without touching the
backend; otherwise delegate to the backend store. -/
def store_error_fix (m : AppwriteAgentMemory)
    (error_message original_code fixed_code topic scene_type fix_method : Str)
    (st : MemBackend) : Bool × MemBackend :=
  if !m.enabled then (false, st)
  else
    store_agent_memory st
      ⟨error_message, original_code, fixed_code, topic, scene_type, fix_method⟩

/-- `AppwriteAgentMemory.search_similar_fixes` (lines 95–130): disabled
memory returns `[]`; otherwise the backend lookup runs. -/
def search_similar_fixes (m : AppwriteAgentMemory)
    (error_message code_context topic scene_type : Str) (limit : Nat)
    (st : MemBackend) : List MemRecord × MemBackend :=
  if !m.enabled then ([], st)
  else search_agent_memory st topic scene_type limit

/-- `AppwriteAgentMemory.get_preventive_examples` (lines 132–172):
disabled memory returns `[]`; otherwise search the backend and keep the
`(error_message, fixed_code)` pairs whose fix code is non-empty. -/
def get_preventive_examples (m : AppwriteAgentMemory)
    (task_description topic scene_type : Str) (limit : Nat)
    (st : MemBackend) : List (Str × Str) × MemBackend :=
  if !m.enabled then ([], st)
  else
    let res := search_agent_memory st topic scene_type limit
    (res.1.filterMap fun r =>
      if r.fixed_code.isEmpty then none else some (r.error_message, r.fixed_code),
     res.2)

/-- `AppwriteAgentMemory.store_successful_generation` (lines 174–209):
disabled memory returns `False`; otherwise store a synthetic record with
a `Successful generation:` message. -/
def store_successful_generation (m : AppwriteAgentMemory)
    (task_description generated_code topic scene_type : Str)
    (st : MemBackend) : Bool × MemBackend :=
  if !m.enabled then (false, st)
  else
    store_agent_memory st
      ⟨lit "Successful generation: " ++ task_description,
       lit "# Previous attempt", generated_code, topic, scene_type, lit "llm"⟩

/-- C9 — Memory-unavailable no-op: with memory not enabled, every memory
operation returns its benign value (`False` for the stores, `[]` for the
lookups) and leaves the backend untouched (no backend call is made), so
callers behave identically with or without memory. -/
theorem c9_memory_disabled_noop (m : AppwriteAgentMemory)
    (em oc fc tp sc fm cc td gc : Str) (lim : Nat) (st : MemBackend)
    (h : m.enabled = false) :
    store_error_fix m em oc fc tp sc fm st = (false, st) ∧
    search_similar_fixes m em cc tp sc lim st = ([], st) ∧
    get_preventive_examples m td tp sc lim st = ([], st) ∧
    store_successful_generation m td gc tp sc st = (false, st) := by
  simp [store_error_fix, search_similar_fixes, get_preventive_examples,
        store_successful_generation, h]

/-- Witness for C9 at a concrete disabled memory and non-trivial backend
state. -/
theorem c9_memory_disabled_noop_witness :
    (AppwriteAgentMemory.mk false).enabled = false ∧
    (store_error_fix ⟨false⟩ (lit "err") (lit "orig") (lit "fix") (lit "topic")
        (lit "graph") (lit "auto") ⟨[], 3⟩ = (false, ⟨[], 3⟩) ∧
     search_similar_fixes ⟨false⟩ (lit "err") (lit "ctx") (lit "topic")
        (lit "graph") 5 ⟨[], 3⟩ = ([], ⟨[], 3⟩) ∧
     get_preventive_examples ⟨false⟩ (lit "task") (lit "topic") (lit "graph") 5
        ⟨[], 3⟩ = ([], ⟨[], 3⟩) ∧
     store_successful_generation ⟨false⟩ (lit "task") (lit "code") (lit "topic")
        (lit "graph") ⟨[], 3⟩ = (false, ⟨[], 3⟩)) :=
  ⟨rfl, c9_memory_disabled_noop ⟨false⟩ (lit "err") (lit "orig") (lit "fix")
    (lit "topic") (lit "graph") (lit "auto") (lit "ctx") (lit "task")
    (lit "code") 5 ⟨[], 3⟩ rfl⟩

/-!
## Search-assisted repair: the fallback query builder (C8)

Embeds `TavilyErrorSearchEngine._generate_search_query_fallback` and
`_extract_main_manim_object` from `src/utils/tavily_search.py`.

The companion helper `_extract_key_error_phrase` (lines 612–658) is a
pure function of the traceback built from a cascade of regular
expressions; its result string enters `_generate_search_query_fallback`
only through the `error_phrase` value.  The embedding therefore passes
`error_phrase` as an explicit parameter, and the theorems below quantify
over *every* possible value of it — in particular over the value the
Python helper would produce.
-/

/-- The priority-ordered Manim object list of
`_extract_main_manim_object` (tavily_search.py lines 575–596). -/
def manim_objects : List Str :=
  [lit "Polygon", lit "Triangle", lit "Square", lit "Circle", lit "Rectangle",
   lit "RegularPolygon", lit "Ellipse",
   lit "Line", lit "Arrow", lit "Vector", lit "Angle", lit "Arc",
   lit "Sector", lit "Annulus",
   lit "Text", lit "MathTex", lit "Tex", lit "MarkupText", lit "Code",
   lit "Sphere", lit "Cube", lit "Cylinder", lit "Cone", lit "Torus",
   lit "Surface", lit "ParametricSurface",
   lit "Transform", lit "ReplacementTransform", lit "TransformMatchingTex",
   lit "FadeIn", lit "FadeOut",
   lit "Create", lit "Write", lit "DrawBorderThenFill", lit "ShowCreation",
   lit "GrowFromCenter",
   lit "Indicate", lit "Flash", lit "Circumscribe", lit "Wiggle",
   lit "Rotate", lit "Move", lit "Shift",
   lit "Scene", lit "VGroup", lit "Group", lit "VMobject", lit "Mobject",
   lit "NumberLine", lit "Axes", lit "Graph", lit "BarChart", lit "PieChart"]

/-- `TavilyErrorSearchEngine._extract_main_manim_object`
(tavily_search.py lines 572–610): search the lowered
`traceback + " " + " ".join(key_components)` for the first listed Manim
object; fall back to the first capitalised component longer than 2
characters; otherwise the empty string. -/
def extract_main_manim_object (tb : Str) (key_components : List Str) : Str :=
  let text := strLower (tb ++ lit " " ++ joinSpace key_components)
  match manim_objects.find? (fun o => strContains text (strLower o)) with
  | some o => o
  | none =>
    match key_components.find?
        (fun c => !c.isEmpty && (c.headD ' ').isUpper && c.length > 2) with
    | some c => c
    | none => []

/-- The `site:docs.manim.community` suffix appended to every query
template of `_generate_search_query_fallback`. -/
def site_suffix : Str := lit " site:docs.manim.community"

/-- The `query_parts` list of `_generate_search_query_fallback` after
lines 542–549: `["manim"]`, the main object when non-empty, then the
error type. -/
def fallback_parts0 (error_type mo : Str) : List Str :=
  if mo.isEmpty then [lit "manim", error_type]
  else [lit "manim", mo, error_type]

/-- The `query_parts` list after lines 551–555: the error phrase is
appended when it is non-empty and the joined test query stays under 350
characters. -/
def fallback_parts (error_type mo phrase : Str) : List Str :=
  if !phrase.isEmpty &&
      (joinSpace (fallback_parts0 error_type mo ++ [phrase])).length < 350 then
    fallback_parts0 error_type mo ++ [phrase]
  else fallback_parts0 error_type mo

/-- Lines 557–570 of `_generate_search_query_fallback`: build the final
query from the parts, shrinking twice if it exceeds 400 characters, with
the stripped `manim {error_type} {main_object} site:…` template as last
resort. -/
def fallback_from_parts (error_type mo phrase : Str) : Str :=
  if (joinSpace (fallback_parts error_type mo phrase) ++ site_suffix).length > 400 then
    if ((if !phrase.isEmpty then joinSpace (fallback_parts error_type mo phrase).dropLast
         else joinSpace (fallback_parts error_type mo phrase)) ++ site_suffix).length > 400 then
      strStrip (lit "manim " ++ error_type ++ lit " " ++ mo ++ site_suffix)
    else
      (if !phrase.isEmpty then joinSpace (fallback_parts error_type mo phrase).dropLast
       else joinSpace (fallback_parts error_type mo phrase)) ++ site_suffix
  else joinSpace (fallback_parts error_type mo phrase) ++ site_suffix

/-- `TavilyErrorSearchEngine._generate_search_query_fallback`
(tavily_search.py lines 528–570).  `error_phrase` stands for the value of
`self._extract_key_error_phrase(traceback)` (see the section comment). -/
def generate_search_query_fallback (error_type : Str) (key_components : List Str)
    (tb : Str) (error_phrase : Str) : Str :=
  fallback_from_parts error_type (extract_main_manim_object tb key_components)
    error_phrase

lemma strStartsWith_append (p t : Str) : strStartsWith (p ++ t) p = true := by
  induction p with
  | nil => cases t <;> rfl
  | cons c p ih => simp [strStartsWith, ih]

lemma strContains_of_startsWith {s p : Str} (h : strStartsWith s p = true) :
    strContains s p = true := by
  cases s with
  | nil => simp [strContains, strFind, h]
  | cons c t => simp [strContains, strFind, h]

lemma joinSpace_cons_append (p : Str) (r : List Str) :
    ∃ t, joinSpace (p :: r) = p ++ t := by
  cases r with
  | nil => exact ⟨[], by simp [joinSpace]⟩
  | cons q r' => exact ⟨' ' :: joinSpace (q :: r'), rfl⟩

lemma strContains_joinSpace_cons (p : Str) (r : List Str) (t : Str) :
    strContains (joinSpace (p :: r) ++ t) p = true := by
  obtain ⟨u, hu⟩ := joinSpace_cons_append p r
  rw [hu, List.append_assoc]
  exact strContains_of_startsWith (strStartsWith_append p (u ++ t))

lemma dropWhile_cons_of_nospace (c : Char) (t : Str) (h : pyIsSpace c = false) :
    List.dropWhile pyIsSpace (c :: t) = c :: t := by
  simp [List.dropWhile_cons, h]

lemma strStrip_manim_site (mid : Str) :
    strStrip (lit "manim " ++ mid ++ site_suffix) =
      lit "manim " ++ mid ++ site_suffix := by
  have e1 : lit "manim " ++ mid ++ site_suffix =
      'm' :: (lit "anim " ++ (mid ++ site_suffix)) := rfl
  have e2 : ('m' :: (lit "anim " ++ (mid ++ site_suffix))).reverse =
      'y' :: (lit "tinummoc.minam.scod:etis " ++
        (mid.reverse ++ lit " minam")) := by
    have h3 : 'm' :: (lit "anim " ++ (mid ++ site_suffix)) =
        lit "manim " ++ (mid ++ site_suffix) := rfl
    rw [h3, List.reverse_append, List.reverse_append]
    have h4 : site_suffix.reverse = 'y' :: lit "tinummoc.minam.scod:etis " := rfl
    have h5 : (lit "manim ").reverse = lit " minam" := rfl
    rw [h4, h5]
    simp [List.append_assoc]
  unfold strStrip
  rw [e1, dropWhile_cons_of_nospace _ _ (by decide), e2,
    dropWhile_cons_of_nospace _ _ (by decide), ← e2, List.reverse_reverse, ← e1]

lemma fallback_parts0_cons (error_type mo : Str) :
    ∃ r, fallback_parts0 error_type mo = lit "manim" :: r := by
  unfold fallback_parts0
  split <;> exact ⟨_, rfl⟩

lemma fallback_parts_cons (error_type mo phrase : Str) :
    ∃ r, fallback_parts error_type mo phrase = lit "manim" :: r := by
  obtain ⟨r0, h0⟩ := fallback_parts0_cons error_type mo
  unfold fallback_parts
  split
  · exact ⟨r0 ++ [phrase], by rw [h0]; rfl⟩
  · exact ⟨r0, h0⟩

lemma fallback_parts_dropLast_cons (error_type mo phrase : Str) :
    ∃ r, (fallback_parts error_type mo phrase).dropLast = lit "manim" :: r := by
  obtain ⟨r0, h0⟩ := fallback_parts0_cons error_type mo
  have h1 : ∃ a r, fallback_parts0 error_type mo = lit "manim" :: a :: r := by
    unfold fallback_parts0
    split <;> exact ⟨_, _, rfl⟩
  obtain ⟨a, r, har⟩ := h1
  unfold fallback_parts
  split
  · rw [h0]
    exact ⟨r0, List.dropLast_concat ..⟩
  · rw [har]
    exact ⟨(a :: r).dropLast, by simp⟩

/-- Length of the joined base parts: at most `7 + |error_type| + |mo|`
(`"manim"` plus up to two joining spaces). -/
lemma fallback_parts0_length (error_type mo : Str) :
    (joinSpace (fallback_parts0 error_type mo)).length ≤
      7 + error_type.length + mo.length := by
  have h5 : (lit "manim").length = 5 := rfl
  unfold fallback_parts0
  split <;> simp [joinSpace, h5] <;> omega

/-- C8 (amended) — the fallback search query always contains the library
token `manim` (it starts with it); and its length is at most 400
characters provided the caller-supplied `error_type` together with the
extracted main object fit in the last-resort template (combined length at
most 367).  Without that size bound the 400-character cap fails (see the
counterexample): the code interpolates `error_type` into every template
including the last-resort one. -/
theorem c8_fallback_query_amended (error_type : Str) (key_components : List Str)
    (tb : Str) (error_phrase : Str) :
    strContains (generate_search_query_fallback error_type key_components tb
      error_phrase) (lit "manim") = true ∧
    (error_type.length +
        (extract_main_manim_object tb key_components).length ≤ 367 →
      (generate_search_query_fallback error_type key_components tb
        error_phrase).length ≤ 400) := by
  unfold generate_search_query_fallback
  set mo := extract_main_manim_object tb key_components with hmo
  constructor
  · -- the query always contains "manim"
    unfold fallback_from_parts
    obtain ⟨r, hr⟩ := fallback_parts_cons error_type mo error_phrase
    obtain ⟨r', hr'⟩ := fallback_parts_dropLast_cons error_type mo error_phrase
    have hstrip : strContains
        (strStrip (lit "manim " ++ error_type ++ lit " " ++ mo ++ site_suffix))
        (lit "manim") = true := by
      have e : lit "manim " ++ error_type ++ lit " " ++ mo ++ site_suffix =
          lit "manim " ++ (error_type ++ lit " " ++ mo) ++ site_suffix := by
        simp [List.append_assoc]
      rw [e, strStrip_manim_site (error_type ++ lit " " ++ mo)]
      exact strContains_of_startsWith (strStartsWith_append (lit "manim") _)
    by_cases hph : error_phrase.isEmpty = true
    · simp only [hph, Bool.not_true, Bool.false_eq_true, if_false]
      split
      · exact hstrip
      · rw [hr]
        exact strContains_joinSpace_cons (lit "manim") r _
    · have hph' : (!error_phrase.isEmpty) = true := by
        simp [Bool.not_eq_true] at hph ⊢
        exact hph
      simp only [hph', if_true]
      split
      · split
        · exact hstrip
        · rw [hr']
          exact strContains_joinSpace_cons (lit "manim") r' _
      · rw [hr]
        exact strContains_joinSpace_cons (lit "manim") r _
  · -- the 400-character bound under the size hypothesis
    intro hsz
    unfold fallback_from_parts fallback_parts
    have hsuf : site_suffix.length = 26 := rfl
    split
    · -- phrase appended: the joined test query is under 350 characters
      rename_i hcond
      have hlt : (joinSpace (fallback_parts0 error_type mo ++ [error_phrase])).length
          < 350 := by
        have := (Bool.and_eq_true _ _).mp hcond
        exact of_decide_eq_true this.2
      have hle : (joinSpace (fallback_parts0 error_type mo ++ [error_phrase]) ++
          site_suffix).length ≤ 400 := by
        rw [List.length_append, hsuf]
        omega
      have hnot : ¬ (joinSpace (fallback_parts0 error_type mo ++ [error_phrase]) ++
          site_suffix).length > 400 := by omega
      rw [if_neg hnot]
      exact hle
    · -- phrase not appended: the base query fits under the hypothesis
      have hb := fallback_parts0_length error_type mo
      have hle : (joinSpace (fallback_parts0 error_type mo) ++
          site_suffix).length ≤ 400 := by
        rw [List.length_append, hsuf]
        omega
      have hnot : ¬ (joinSpace (fallback_parts0 error_type mo) ++
          site_suffix).length > 400 := by omega
      rw [if_neg hnot]
      exact hle

set_option maxRecDepth 8000 in
/-- C8 counterexample — the claim's unconditional 400-character bound is
false: with a 400-character `error_type` (and empty components,
traceback, and error phrase) the fallback builder returns a
433-character query. -/
theorem c8_counterexample :
    (generate_search_query_fallback (List.replicate 400 'x') [] [] []).length
      = 433 ∧ ¬ (generate_search_query_fallback (List.replicate 400 'x')
        [] [] []).length ≤ 400 := by
  constructor
  · decide
  · decide

/-- Witness for C8 at a short concrete error type: the hypothesis of the
amended theorem is discharged and the bound holds. -/
theorem c8_fallback_query_witness :
    strContains (generate_search_query_fallback (lit "TypeError") [] [] [])
      (lit "manim") = true ∧
    (generate_search_query_fallback (lit "TypeError") [] [] []).length ≤ 400 :=
  ⟨(c8_fallback_query_amended (lit "TypeError") [] [] []).1,
   (c8_fallback_query_amended (lit "TypeError") [] [] []).2 (by decide)⟩

/-!
## Code generator: model oracle, filesystem, code extraction (C4)

Embeds `CodeGenerator` from `src/core/code_generator.py`.  The text model
is an oracle: a FIFO list of pending responses in the state, consumed by
`model_call` (an exhausted oracle yields the empty response).  The
filesystem is an association list from paths (segment lists, mirroring
`os.path.join`) to file contents.  Python exceptions are `Except`
errors; each stateful operation returns its result together with the
updated state so that call counts are observable even on the error path.
-/

deriving instance DecidableEq for Except

/-- Embedded Python exceptions. -/
inductive PyErr where
  /-- `ValueError` (e.g. extraction exhausted its retries). -/
  | valueError : PyErr
  /-- `AttributeError` (a failed `re.search(...).group(1)`). -/
  | attributeError : PyErr
  /-- `json.JSONDecodeError` escaping an uncaught `json.load`. -/
  | jsonError : PyErr
deriving Repr, DecidableEq

/-- A filesystem path, as the list of segments joined by `os.path.join`. -/
abbrev FsPath := List Str

/-- The on-disk cache state: an association list path ↦ contents. -/
abbrev Fs := List (FsPath × Str)

/-- Read a file (`open(...).read()` / `os.path.exists` probe). -/
def fsRead (fs : Fs) (p : FsPath) : Option Str :=
  (fs.find? fun e => e.1 == p).map (·.2)

/-- Write (create or overwrite) a file. -/
def fsWrite (fs : Fs) (p : FsPath) (v : Str) : Fs :=
  (fs.filter fun e => !(e.1 == p)) ++ [(p, v)]

/-- Mutable state threaded through the code generator: the model oracle
and its call counter, the filesystem, the Pattern-Memory writes performed
so far, and the pending `_last_fix_metadata`. -/
structure CGState where
  responses : List Str
  calls : Nat
  fs : Fs
  memWrites : List MemRecord
  pending : Option MemRecord
deriving Repr, DecidableEq

/-- One call of the scene/helper model: consume the next oracle response
(empty once exhausted) and count the call. -/
def model_call (st : CGState) : Str × CGState :=
  (st.responses.headD [],
   { st with responses := st.responses.tail, calls := st.calls + 1 })

/-- Index of the last occurrence of `pat` in `s`. -/
def strFindLast (pat : Str) : Str → Option Nat
  | [] => if strStartsWith [] pat then some 0 else none
  | c :: t =>
    match strFindLast pat t with
    | some i => some (i + 1)
    | none => if strStartsWith (c :: t) pat then some 0 else none

/-- `re.search(marker + "(.*)" + "```", s, re.DOTALL)`, the greedy fenced
block pattern: the match starts at the first occurrence of the opening
marker, and the greedy `(.*)` extends the capture to the last `` ``` ``
in the remainder of the text.  (A later opening marker can never match
when the first one cannot, since any closing fence after a later marker
also follows the first.) -/
def extract_fenced_greedy (marker : Str) (s : Str) : Option Str :=
  match strFind marker s with
  | none => none
  | some i =>
    let rest := (s.drop i).drop marker.length
    match strFindLast (lit "```") rest with
    | none => none
    | some j => some (rest.take j)

/-- `re.search(marker + "(.*?)" + closeMark, s, re.DOTALL)`, the lazy
fenced block pattern: the match starts at the first occurrence of the
opening marker, and the lazy `(.*?)` stops at the first close mark after
it. -/
def extract_fenced_lazy (marker closeMark : Str) (s : Str) : Option Str :=
  match strFind marker s with
  | none => none
  | some i =>
    let rest := (s.drop i).drop marker.length
    match strFind closeMark rest with
    | none => none
    | some j => some (rest.take j)

/-- The two regex patterns passed to `_extract_code_with_retries` in the
sources: `r"```python(.*)```"` (generation, Tavily fix, visual fix) and
`r"```python\n(.*?)\n```"` (the LLM error-fix path). -/
inductive CodePattern where
  | pyGreedy : CodePattern
  | pyLazy : CodePattern
deriving Repr, DecidableEq

/-- Run the fenced-code extraction for the given pattern
(`re.search(pattern, response_text, re.DOTALL)` + `.group(1)`). -/
def run_extract : CodePattern → Str → Option Str
  | .pyGreedy, s => extract_fenced_greedy (lit "```python") s
  | .pyLazy, s => extract_fenced_lazy (lit "```python\n") (lit "\n```") s

/-- `CodeGenerator._extract_code_with_retries`
(src/core/code_generator.py lines 251–293): try to extract a fenced code
block from the response; on failure re-prompt the model (except on the
last attempt) and retry, for `max_retries` attempts in total; exhausting
the attempts raises `ValueError`. -/
def extract_code_with_retries (pat : CodePattern) :
    Str → Nat → CGState → Except PyErr Str × CGState
  | _, 0, st => (Except.error PyErr.valueError, st)
  | response, n + 1, st =>
    match run_extract pat response with
    | some code => (Except.ok code, st)
    | none =>
      if n = 0 then (Except.error PyErr.valueError, st)
      else
        let r := model_call st
        extract_code_with_retries pat r.1 n r.2

lemma run_extract_nil (pat : CodePattern) : run_extract pat [] = none := by
  cases pat <;> rfl

lemma extract_code_with_retries_calls (pat : CodePattern) :
    ∀ (n : Nat) (response : Str) (st : CGState),
      (extract_code_with_retries pat response n st).2.calls ≤ st.calls + (n - 1) := by
  intro n
  induction n with
  | zero => intro response st; simp [extract_code_with_retries]
  | succ n ih =>
    intro response st
    unfold extract_code_with_retries
    match h : run_extract pat response with
    | some code => simp [h]
    | none =>
      simp only [h]
      by_cases hn : n = 0
      · simp [hn]
      · simp only [hn, if_false]
        calc (extract_code_with_retries pat (model_call st).1 n
                (model_call st).2).2.calls
            ≤ (model_call st).2.calls + (n - 1) := ih _ _
          _ ≤ st.calls + (n + 1 - 1) := by simp [model_call]; omega

lemma extract_code_with_retries_sound (pat : CodePattern) (v : Str) :
    ∀ (n : Nat) (response : Str) (st : CGState),
      (extract_code_with_retries pat response n st).1 = Except.ok v →
      ∃ r, run_extract pat r = some v := by
  intro n
  induction n with
  | zero => intro response st h; simp [extract_code_with_retries] at h
  | succ n ih =>
    intro response st h
    unfold extract_code_with_retries at h
    match he : run_extract pat response with
    | some code =>
      simp [he] at h
      exact ⟨response, by rw [he, h]⟩
    | none =>
      simp only [he] at h
      by_cases hn : n = 0
      · simp [hn] at h
      · simp only [hn, if_false] at h
        exact ih _ _ h

lemma extract_code_with_retries_exhaust (pat : CodePattern) :
    ∀ (n : Nat) (response : Str) (st : CGState),
      run_extract pat response = none →
      (∀ r ∈ st.responses, run_extract pat r = none) →
      (extract_code_with_retries pat response n st).1 =
        Except.error PyErr.valueError := by
  intro n
  induction n with
  | zero => intro response st _ _; simp [extract_code_with_retries]
  | succ n ih =>
    intro response st hresp hall
    unfold extract_code_with_retries
    simp only [hresp]
    by_cases hn : n = 0
    · simp [hn]
    · simp only [hn, if_false]
      refine ih _ _ ?_ ?_
      · match hr : st.responses with
        | [] => simpa [model_call, hr] using run_extract_nil pat
        | r :: rest => simpa [model_call, hr] using hall r (by simp [hr])
      · intro r hr
        refine hall r ?_
        rcases hrs : st.responses with _ | ⟨a, rest⟩
        · simp [model_call, hrs] at hr
        · simp [model_call, hrs] at hr
          simp [hrs, hr]

/-- C4 — Bounded code extraction: (a) when the response already matches
the required fenced-code pattern the first match's capture is returned at
once, with no model call; (b) at most `max_retries − 1` re-prompts are
ever issued (so the loop is bounded); (c) a returned value is always the
capture of the pattern on one of the model's responses — a non-matching
value is never returned; (d) when the response and every queued re-prompt
response fail to match, the call raises `ValueError`. -/
theorem c4_extract_code_bounded (pat : CodePattern) (response v : Str)
    (n : Nat) (st : CGState) :
    (1 ≤ n → run_extract pat response = some v →
      extract_code_with_retries pat response n st = (Except.ok v, st)) ∧
    ((extract_code_with_retries pat response n st).2.calls ≤
      st.calls + (n - 1)) ∧
    ((extract_code_with_retries pat response n st).1 = Except.ok v →
      ∃ r, run_extract pat r = some v) ∧
    (run_extract pat response = none →
      (∀ r ∈ st.responses, run_extract pat r = none) →
      (extract_code_with_retries pat response n st).1 =
        Except.error PyErr.valueError) := by
  refine ⟨?_, extract_code_with_retries_calls pat n response st,
    extract_code_with_retries_sound pat v n response st,
    extract_code_with_retries_exhaust pat n response st⟩
  intro hn hv
  match n, hn with
  | n + 1, _ => simp [extract_code_with_retries, hv]

/-- Witness for C4: a concrete matching response is extracted immediately
(attempts bounded, capture returned), and a concrete never-matching
oracle exhausts into `ValueError`. -/
theorem c4_extract_code_bounded_witness :
    extract_code_with_retries CodePattern.pyGreedy
        (lit "```python\ncode\n```") 10 ⟨[], 0, [], [], none⟩ =
      (Except.ok (lit "\ncode\n"), ⟨[], 0, [], [], none⟩) ∧
    (extract_code_with_retries CodePattern.pyGreedy (lit "no fence") 10
        ⟨[lit "still no fence"], 0, [], [], none⟩).1 =
      Except.error PyErr.valueError :=
  ⟨(c4_extract_code_bounded CodePattern.pyGreedy (lit "```python\ncode\n```")
      (lit "\ncode\n") 10 ⟨[], 0, [], [], none⟩).1 (by norm_num) (by decide),
   (c4_extract_code_bounded CodePattern.pyGreedy (lit "no fence")
      [] 10 ⟨[lit "still no fence"], 0, [], [], none⟩).2.2.2 (by decide)
      (by decide)⟩

/-!
## RAG query generation and its cache (C7, part of C6)

Embeds `CodeGenerator._generate_rag_queries_code` and
`CodeGenerator._generate_rag_queries_error_fix`
(src/core/code_generator.py lines 137–249).

`json.loads` / `json.dump` are Python standard-library collaborators;
they are abstracted as a decoder `jsonLoads : Str → Option (List Str)`
(`none` = `JSONDecodeError`) and an encoder `jsonDumps`, and every
theorem quantifies over both.  The decoder is typed at the declared
return type `List[str]` of the two generators.
-/

/-- A character admitted by the sanitiser class `[a-z0-9_]` (the topic is
lowered first). -/
def sanAllowed (c : Char) : Bool :=
  ('a' ≤ c && c ≤ 'z') || c.isDigit || c == '_'

/-- `re.sub(r"[^a-z0-9_]+", "_", s)`: each maximal run of disallowed
characters collapses to a single underscore (fuel-indexed scanner;
`sanitize_sub` supplies enough fuel). -/
def sanitize_subF : Nat → Str → Str
  | 0, s => s
  | _ + 1, [] => []
  | fuel + 1, c :: t =>
    if sanAllowed c then c :: sanitize_subF fuel t
    else '_' :: sanitize_subF fuel (t.dropWhile fun d => !sanAllowed d)

def sanitize_sub (s : Str) : Str := sanitize_subF s.length s

/-- `re.sub(r"[^a-z0-9_]+", "_", topic.lower())`, the file-prefix
sanitiser used throughout the pipeline. -/
def sanitize_topic (topic : Str) : Str := sanitize_sub (strLower topic)

/-- Decimal rendering of a number interpolated into a path (f-strings). -/
def natStrF : Nat → Nat → Str
  | 0, _ => []
  | fuel + 1, n =>
    if n < 10 then [Char.ofNat (48 + n)]
    else natStrF fuel (n / 10) ++ [Char.ofNat (48 + n % 10)]

def natStr (n : Nat) : Str := natStrF (n + 1) n

/-- The cache path
`output_dir/<sanitized topic>/scene<n>/rag_cache/<leaf>`. -/
def rag_cache_path (output_dir topic : Str) (scene_number : Nat) (leaf : Str) :
    FsPath :=
  [output_dir, sanitize_topic topic, lit "scene" ++ natStr scene_number,
   lit "rag_cache", leaf]

/-- `CodeGenerator._generate_rag_queries_code` (lines 137–192): a present
cache file short-circuits (its parse is returned; a corrupted cache file
raises, uncaught); otherwise one helper-model call is made, the
` ```json(.*)``` ` block is extracted and decoded — any parse failure
(missing block = `AttributeError`, bad JSON = `JSONDecodeError`) is
caught and `[]` is returned — and a successful parse is cached and
returned. -/
def generate_rag_queries_code (jsonLoads : Str → Option (List Str))
    (jsonDumps : List Str → Str) (output_dir topic : Str) (scene_number : Nat)
    (st : CGState) : Except PyErr (List Str) × CGState :=
  match fsRead st.fs (rag_cache_path output_dir topic scene_number
      (lit "rag_queries_code.json")) with
  | some content =>
    match jsonLoads content with
    | some v => (Except.ok v, st)
    | none => (Except.error PyErr.jsonError, st)
  | none =>
    match extract_fenced_greedy (lit "```json") (model_call st).1 with
    | none => (Except.ok [], (model_call st).2)
    | some block =>
      match jsonLoads block with
      | none => (Except.ok [], (model_call st).2)
      | some qs =>
        (Except.ok qs,
         { (model_call st).2 with
           fs := fsWrite (model_call st).2.fs
             (rag_cache_path output_dir topic scene_number
               (lit "rag_queries_code.json")) (jsonDumps qs) })

/-- `CodeGenerator._generate_rag_queries_error_fix` (lines 194–249): same
cache discipline with leaf `rag_queries_error_fix.json`; the response is
stripped of its ` ```json ` / ` ``` ` markers by `str.replace` and
decoded; a `JSONDecodeError` is caught and `[]` returned. -/
def generate_rag_queries_error_fix (jsonLoads : Str → Option (List Str))
    (jsonDumps : List Str → Str) (output_dir topic : Str) (scene_number : Nat)
    (st : CGState) : Except PyErr (List Str) × CGState :=
  match fsRead st.fs (rag_cache_path output_dir topic scene_number
      (lit "rag_queries_error_fix.json")) with
  | some content =>
    match jsonLoads content with
    | some v => (Except.ok v, st)
    | none => (Except.error PyErr.jsonError, st)
  | none =>
    match jsonLoads (replaceAll (lit "```") []
        (replaceAll (lit "```json") [] (model_call st).1)) with
    | none => (Except.ok [], (model_call st).2)
    | some qs =>
      (Except.ok qs,
       { (model_call st).2 with
         fs := fsWrite (model_call st).2.fs
           (rag_cache_path output_dir topic scene_number
             (lit "rag_queries_error_fix.json")) (jsonDumps qs) })

/-- C7 — Retrieval query parsing never propagates failures: on a cache
miss, whenever the model response's structured query list cannot be
parsed (no ` ```json ` block, or the decoder rejects the block /
stripped response), both generators return `Except.ok []` — an empty
query list, not an exception — make exactly the one model call, and
write nothing to the cache. -/
theorem c7_rag_parse_failure_returns_empty
    (jsonLoads : Str → Option (List Str)) (jsonDumps : List Str → Str)
    (output_dir topic : Str) (scene_number : Nat) (st : CGState) :
    (fsRead st.fs (rag_cache_path output_dir topic scene_number
        (lit "rag_queries_code.json")) = none →
      (match extract_fenced_greedy (lit "```json") (st.responses.headD []) with
       | none => True
       | some block => jsonLoads block = none) →
      generate_rag_queries_code jsonLoads jsonDumps output_dir topic
          scene_number st =
        (Except.ok [], { st with responses := st.responses.tail,
                                 calls := st.calls + 1 })) ∧
    (fsRead st.fs (rag_cache_path output_dir topic scene_number
        (lit "rag_queries_error_fix.json")) = none →
      jsonLoads (replaceAll (lit "```") []
        (replaceAll (lit "```json") [] (st.responses.headD []))) = none →
      generate_rag_queries_error_fix jsonLoads jsonDumps output_dir topic
          scene_number st =
        (Except.ok [], { st with responses := st.responses.tail,
                                 calls := st.calls + 1 })) := by
  constructor
  · intro hc hp
    unfold generate_rag_queries_code
    rw [hc]
    match he : extract_fenced_greedy (lit "```json") (st.responses.headD []) with
    | none => simp [model_call]
    | some block =>
      rw [he] at hp
      have hp' : jsonLoads block = none := hp
      simp [model_call, hp']
  · intro hc hp
    unfold generate_rag_queries_error_fix
    rw [hc]
    have hp' : jsonLoads (replaceAll (lit "```") []
        (replaceAll (lit "```json") [] (model_call st).1)) = none := hp
    rw [hp']
    simp [model_call]

/-- Witness for C7: with an empty cache, a response with no JSON block,
and a decoder that rejects everything, both generators return `[]`
normally after one model call. -/
theorem c7_rag_parse_failure_witness :
    generate_rag_queries_code (fun _ => none) (fun _ => [])
        (lit "output") (lit "Topic") 1
        ⟨[lit "no json here"], 0, [], [], none⟩ =
      (Except.ok [], ⟨[], 1, [], [], none⟩) ∧
    generate_rag_queries_error_fix (fun _ => none) (fun _ => [])
        (lit "output") (lit "Topic") 1
        ⟨[lit "no json here"], 0, [], [], none⟩ =
      (Except.ok [], ⟨[], 1, [], [], none⟩) :=
  ⟨((c7_rag_parse_failure_returns_empty (fun _ => none) (fun _ => [])
      (lit "output") (lit "Topic") 1
      ⟨[lit "no json here"], 0, [], [], none⟩).1 (by decide)
      (by show True; trivial)),
   ((c7_rag_parse_failure_returns_empty (fun _ => none) (fun _ => [])
      (lit "output") (lit "Topic") 1
      ⟨[lit "no json here"], 0, [], [], none⟩).2 (by decide) rfl)⟩

/-!
## Tier 0 — deterministic rewrite (C5)

Embeds `CodeGenerator._auto_fix_common_issues` from
`appwrite_functions/video_generation/src/core/code_generator.py`
(lines 536–696).  Each `re.sub` of the source is hand-compiled to a
scanner realising the leftmost-match semantics of its specific pattern;
the doc comments name the patterns.  The function is a pure
`Str → Str → Str`: it takes no model oracle, which is the embedded form
of "no model call".
-/

/-- Sequential `str.replace` chain (left to right over the pair list). -/
def chainReplace (ps : List (Str × Str)) (s : Str) : Str :=
  ps.foldl (fun acc p => replaceAll p.1 p.2 acc) s

/-- Fix 1 replacement table (lines 552–589): config frame-radius accesses
to hard-coded frame constants. -/
def fix1_table : List (Str × Str) :=
  [(lit "FRAME_X_MIN = config[\"frame_x_radius\"]", lit "FRAME_X_MIN = -7.0"),
   (lit "FRAME_X_MAX = config[\"frame_x_radius\"]", lit "FRAME_X_MAX = 7.0"),
   (lit "FRAME_Y_MIN = config[\"frame_y_radius\"]", lit "FRAME_Y_MIN = -4.0"),
   (lit "FRAME_Y_MAX = config[\"frame_y_radius\"]", lit "FRAME_Y_MAX = 4.0"),
   (lit "FRAME_X_MIN = config.frame_x_radius", lit "FRAME_X_MIN = -7.0"),
   (lit "FRAME_X_MAX = config.frame_x_radius", lit "FRAME_X_MAX = 7.0"),
   (lit "FRAME_Y_MIN = config.frame_y_radius", lit "FRAME_Y_MIN = -4.0"),
   (lit "FRAME_Y_MAX = config.frame_y_radius", lit "FRAME_Y_MAX = 4.0"),
   (lit "FRAME_X_MIN = global_config.frame_x_radius", lit "FRAME_X_MIN = -7.0"),
   (lit "FRAME_X_MAX = global_config.frame_x_radius", lit "FRAME_X_MAX = 7.0"),
   (lit "FRAME_Y_MIN = global_config.frame_y_radius", lit "FRAME_Y_MIN = -4.0"),
   (lit "FRAME_Y_MAX = global_config.frame_y_radius", lit "FRAME_Y_MAX = 4.0")]

/-- Fix 8 replacement table (lines 659–671): config frame-size accesses
to hard-coded constants (applied in source order — the later entries are
dead because the first two already rewrote their substrings, and the
embedding reproduces this). -/
def fix8_table : List (Str × Str) :=
  [(lit "config.frame_width", lit "14.0"),
   (lit "config.frame_height", lit "8.0"),
   (lit "-config.frame_width / 2", lit "-7.0"),
   (lit "config.frame_width / 2", lit "7.0"),
   (lit "-config.frame_height / 2", lit "-4.0"),
   (lit "config.frame_height / 2", lit "4.0")]

/-- The greedy position of `buff=` chosen by `[^)]*buff=[^,)]*[,)]`
inside the non-`)` run `R` of an `Arrow3D(` call: the last occurrence of
`buff=` that can complete the pattern — any occurrence when `R` is
terminated by `)` (`tailAfter` non-empty), otherwise one with a later
`,` inside `R`. -/
def lastValidBuff (R tailAfter : Str) : Option Nat :=
  ((List.range (R.length + 1)).filter fun p =>
    strStartsWith (R.drop p) (lit "buff=") &&
    (!tailAfter.isEmpty || strContains (R.drop (p + 5)) (lit ","))).getLast?

/-- Extent of the match of `Arrow3D\([^)]*buff=[^,)]*[,)]` given the text
`rest` following `Arrow3D(`: returns the matched fragment after the
marker and the remainder, or `none`. -/
def arrow3DMatch (rest : Str) : Option (Str × Str) :=
  let R := rest.takeWhile fun c => c != ')'
  let tailAfter := rest.drop R.length
  match lastValidBuff R tailAfter with
  | none => none
  | some p =>
    let afterVal := p + 5 + ((R.drop (p + 5)).takeWhile fun c => c != ',').length
    if afterVal < R.length then
      some (R.take (afterVal + 1), R.drop (afterVal + 1) ++ tailAfter)
    else
      match tailAfter with
      | [] => none
      | c :: t => some (R ++ [c], t)

/-- The inner sub `re.sub(r",?\s*buff=[^,)]*", "", call)` of
`remove_buff` (lines 596–601). -/
def removeBuffF : Nat → Str → Str
  | 0, s => s
  | _ + 1, [] => []
  | fuel + 1, c :: t =>
    let s := c :: t
    let j : Nat := if c == ',' then 1 else 0
    let k := j + ((s.drop j).takeWhile pyIsSpace).length
    if strStartsWith (s.drop k) (lit "buff=") then
      let valLen := ((s.drop (k + 5)).takeWhile fun d => d != ',' && d != ')').length
      removeBuffF fuel (s.drop (k + 5 + valLen))
    else
      c :: removeBuffF fuel t

/-- `remove_buff` (lines 596–602): strip the `buff=` arguments from the
matched call fragment, then clean up `,,` and `(,`. -/
def remove_buff (call : Str) : Str :=
  replaceAll (lit "(,") (lit "(")
    (replaceAll (lit ",,") (lit ",") (removeBuffF call.length call))

/-- Fix 2: `re.sub(r"Arrow3D\([^)]*buff=[^,)]*[,)]", remove_buff, code)`
(lines 592–603). -/
def subArrow3DBuffF : Nat → Str → Str
  | 0, s => s
  | _ + 1, [] => []
  | fuel + 1, c :: t =>
    let s := c :: t
    if strStartsWith s (lit "Arrow3D(") then
      match arrow3DMatch (s.drop 8) with
      | some e => remove_buff (lit "Arrow3D(" ++ e.1) ++ subArrow3DBuffF fuel e.2
      | none => c :: subArrow3DBuffF fuel t
    else c :: subArrow3DBuffF fuel t

def subArrow3DBuff (s : Str) : Str := subArrow3DBuffF s.length s

/-- Match of `([<>]=?)` at the head of `s`. -/
def opMatch (s : Str) : Option (Str × Str) :=
  match s with
  | c :: t =>
    if c == '<' || c == '>' then
      match t with
      | '=' :: t' => some ([c, '='], t')
      | _ => some ([c], t)
    else none
  | [] => none

/-- Match of `(-?\d+\.?\d*)` at the head of `s`. -/
def numMatch (s : Str) : Option (Str × Str) :=
  let sign : Str := if strStartsWith s (lit "-") then ['-'] else []
  let s1 := s.drop sign.length
  let ds := s1.takeWhile Char.isDigit
  if ds.isEmpty then none
  else
    let s2 := s1.drop ds.length
    if strStartsWith s2 (lit ".") then
      let ds2 := (s2.drop 1).takeWhile Char.isDigit
      some (sign ++ ds ++ '.' :: ds2, (s2.drop 1).drop ds2.length)
    else some (sign ++ ds, s2)

/-- Match of `(\w+)<marker>\s*([<>]=?)\s*(-?\d+\.?\d*)` at the head of
`s`, where `marker` is e.g. `.get_bottom()`: returns the three groups
and the remainder. -/
def getCmpMatch (marker : Str) (s : Str) : Option (Str × Str × Str × Str) :=
  let g1 := s.takeWhile pyIsWord
  if g1.isEmpty then none
  else
    let r1 := s.drop g1.length
    if strStartsWith r1 marker then
      let r2 := (r1.drop marker.length)
      let r3 := r2.drop (r2.takeWhile pyIsSpace).length
      match opMatch r3 with
      | none => none
      | some o =>
        let r5 := o.2.drop (o.2.takeWhile pyIsSpace).length
        match numMatch r5 with
        | none => none
        | some nm => some (g1, o.1, nm.1, nm.2)
    else none

/-- Fix 5: one of the four subs
`re.sub(r"(\w+)\.get_X\(\)\s*([<>]=?)\s*(-?\d+\.?\d*)",
r"\1.get_X()[i] \2 \3", code)` (lines 619–629). -/
def subGetCmpF (marker idxTxt : Str) : Nat → Str → Str
  | 0, s => s
  | _ + 1, [] => []
  | fuel + 1, c :: t =>
    match getCmpMatch marker (c :: t) with
    | some m =>
      (m.1 ++ marker ++ idxTxt ++ ' ' :: m.2.1 ++ ' ' :: m.2.2.1) ++
        subGetCmpF marker idxTxt fuel m.2.2.2
    | none => c :: subGetCmpF marker idxTxt fuel t

def subGetCmp (marker idxTxt s : Str) : Str := subGetCmpF marker idxTxt s.length s

/-- Fix 6's generic sub
`re.sub(r"SVGMobject\(\"([^\"]+\.svg)\"\)", ..., code)` (line 638): the
quoted name must end in `.svg` with at least one character before it. -/
def subSVGGenericF : Nat → Str → Str
  | 0, s => s
  | _ + 1, [] => []
  | fuel + 1, c :: t =>
    let s := c :: t
    if strStartsWith s (lit "SVGMobject(\"") then
      let R := (s.drop 12).takeWhile fun d => d != '"'
      if R.length ≥ 5 && strStartsWith (R.drop (R.length - 4)) (lit ".svg") &&
          strStartsWith (s.drop (12 + R.length)) (lit "\")") then
        (lit "Rectangle(height=0.5, width=0.5, color=YELLOW)  # Replaced missing "
          ++ R) ++ subSVGGenericF fuel (s.drop (12 + R.length + 2))
      else c :: subSVGGenericF fuel t
    else c :: subSVGGenericF fuel t

def subSVGGeneric (s : Str) : Str := subSVGGenericF s.length s

/-- Fix 7's first sub `re.sub(r"Surround\(([^)]+)\)", r"Circumscribe(\1)",
code)` (line 648). -/
def subSurroundF : Nat → Str → Str
  | 0, s => s
  | _ + 1, [] => []
  | fuel + 1, c :: t =>
    let s := c :: t
    if strStartsWith s (lit "Surround(") then
      let G := (s.drop 9).takeWhile fun d => d != ')'
      if !G.isEmpty && strStartsWith (s.drop (9 + G.length)) (lit ")") then
        (lit "Circumscribe(" ++ G ++ [')']) ++
          subSurroundF fuel (s.drop (9 + G.length + 1))
      else c :: subSurroundF fuel t
    else c :: subSurroundF fuel t

def subSurround (s : Str) : Str := subSurroundF s.length s

/-- Fix 7's third sub
`re.sub(r"from manim import Surround[^\n]*\n", "", code)` (line 650):
the whole import line, including its newline, is removed (a final line
without a newline does not match). -/
def subImportSurroundLineF : Nat → Str → Str
  | 0, s => s
  | _ + 1, [] => []
  | fuel + 1, c :: t =>
    let s := c :: t
    if strStartsWith s (lit "from manim import Surround") then
      let L := (s.drop 26).takeWhile fun d => d != '\n'
      if strStartsWith (s.drop (26 + L.length)) (lit "\n") then
        subImportSurroundLineF fuel (s.drop (26 + L.length + 1))
      else c :: subImportSurroundLineF fuel t
    else c :: subImportSurroundLineF fuel t

def subImportSurroundLine (s : Str) : Str := subImportSurroundLineF s.length s

/-- The greedy split of the non-`)` run `M` by `.animate.` in
`([^)]+)\.animate\.([^)]+)`: the last occurrence with at least one
character on each side. -/
def lastAnimateSplit (M : Str) : Option Nat :=
  ((List.range (M.length + 1)).filter fun p =>
    decide (1 ≤ p) && strStartsWith (M.drop p) (lit ".animate.") &&
    decide (p + 9 < M.length)).getLast?

/-- Fix 9's first sub
`re.sub(r"Transform\((\w+), \1\.animate\.([^)]+)\)",
r"self.play(\1.animate.\2)", code)` (lines 677–681). -/
def subTransformAnimateF : Nat → Str → Str
  | 0, s => s
  | _ + 1, [] => []
  | fuel + 1, c :: t =>
    let s := c :: t
    if strStartsWith s (lit "Transform(") then
      let g1 := (s.drop 10).takeWhile pyIsWord
      let r2 := (s.drop 10).drop g1.length
      if !g1.isEmpty && strStartsWith r2 (lit ", ") &&
          strStartsWith (r2.drop 2) g1 &&
          strStartsWith ((r2.drop 2).drop g1.length) (lit ".animate.") then
        let r5 := ((r2.drop 2).drop g1.length).drop 9
        let g2 := r5.takeWhile fun d => d != ')'
        if !g2.isEmpty && strStartsWith (r5.drop g2.length) (lit ")") then
          (lit "self.play(" ++ g1 ++ lit ".animate." ++ g2 ++ [')']) ++
            subTransformAnimateF fuel ((r5.drop g2.length).drop 1)
        else c :: subTransformAnimateF fuel t
      else c :: subTransformAnimateF fuel t
    else c :: subTransformAnimateF fuel t

def subTransformAnimate (s : Str) : Str := subTransformAnimateF s.length s

/-- Fix 9's second sub
`re.sub(r"self\.play\(Transform\(([^,]+), ([^)]+)\.animate\.([^)]+)\)\)",
r"self.play(\2.animate.\3)", code)` (lines 683–687). -/
def subPlayTransformF : Nat → Str → Str
  | 0, s => s
  | _ + 1, [] => []
  | fuel + 1, c :: t =>
    let s := c :: t
    if strStartsWith s (lit "self.play(Transform(") then
      let g1 := (s.drop 20).takeWhile fun d => d != ','
      let r2 := (s.drop 20).drop g1.length
      if !g1.isEmpty && strStartsWith r2 (lit ", ") then
        let r3 := r2.drop 2
        let M := r3.takeWhile fun d => d != ')'
        match lastAnimateSplit M with
        | some p =>
          if strStartsWith (r3.drop M.length) (lit "))") then
            (lit "self.play(" ++ M.take p ++ lit ".animate." ++
              M.drop (p + 9) ++ [')']) ++
              subPlayTransformF fuel ((r3.drop M.length).drop 2)
          else c :: subPlayTransformF fuel t
        | none => c :: subPlayTransformF fuel t
      else c :: subPlayTransformF fuel t
    else c :: subPlayTransformF fuel t

def subPlayTransform (s : Str) : Str := subPlayTransformF s.length s

/-- Fix 10's first sub
`re.sub(r"from manim import \*, (\w+)", r"from manim import *", code)`
(line 693). -/
def subFromManimStarF : Nat → Str → Str
  | 0, s => s
  | _ + 1, [] => []
  | fuel + 1, c :: t =>
    let s := c :: t
    if strStartsWith s (lit "from manim import *, ") then
      let w := (s.drop 21).takeWhile pyIsWord
      if !w.isEmpty then
        lit "from manim import *" ++
          subFromManimStarF fuel ((s.drop 21).drop w.length)
      else c :: subFromManimStarF fuel t
    else c :: subFromManimStarF fuel t

def subFromManimStar (s : Str) : Str := subFromManimStarF s.length s

/-- `CodeGenerator._auto_fix_common_issues` (lines 536–696): the ten
error-fingerprint keyed deterministic rewrites, applied in source order
to the running `fixed_code`; the guards that inspect the code always
inspect the *original* `code` argument, as in the source. -/
def auto_fix_common_issues (code error : Str) : Str :=
  let s1 :=
    if strContains error
        (lit "'ManimMLConfig' object has no attribute 'frame_x_radius'") ||
       strContains error (lit "'ManimMLConfig' object is not subscriptable") then
      chainReplace fix1_table code
    else code
  let s2 :=
    if strContains error (lit "unexpected keyword argument 'buff'") &&
       strContains code (lit "Arrow3D") then subArrow3DBuff s1 else s1
  let s3 :=
    if strContains error (lit "invalid syntax") &&
       strContains code (lit "```") then replaceAll (lit "```") [] s2 else s2
  let s4 :=
    if strContains error (lit "missing 1 required positional argument") &&
       strContains code (lit "UpdateFromFunc") then
      replaceAll (lit "def update_ball(self, obj, alpha):")
        (lit "def update_ball(obj):") s3
    else s3
  let s5 :=
    if strContains error
        (lit "The truth value of an array with more than one element is ambiguous") then
      subGetCmp (lit ".get_right()") (lit "[0]")
        (subGetCmp (lit ".get_left()") (lit "[0]")
          (subGetCmp (lit ".get_top()") (lit "[1]")
            (subGetCmp (lit ".get_bottom()") (lit "[1]") s4)))
    else s4
  let s6 :=
    if strContains error (lit "could not find") &&
       strContains error (lit ".svg") then
      subSVGGeneric
        (replaceAll (lit "SVGMobject(\"arrow.svg\")")
          (lit "Arrow(start=ORIGIN, end=RIGHT, color=RED)")
          (replaceAll (lit "SVGMobject(\"car.svg\")")
            (lit "Rectangle(height=0.5, width=1.0, color=BLUE)") s5))
    else s5
  let s7 :=
    if strContains error (lit "is not defined") ||
       strContains error (lit "cannot import name") then
      subImportSurroundLine
        (replaceAll (lit "from manim import *, Surround")
          (lit "from manim import *") (subSurround s6))
    else s6
  let s8 :=
    if strContains error
        (lit "'ManimMLConfig' object has no attribute 'frame_width'") ||
       strContains error
        (lit "'ManimMLConfig' object has no attribute 'frame_height'") then
      chainReplace fix8_table s7
    else s7
  let s9 :=
    if strContains error (lit "object of type 'function' has no len()") &&
       strContains code (lit "Transform") then
      subPlayTransform (subTransformAnimate s8)
    else s8
  if strContains error (lit "invalid syntax") &&
     strContains error (lit "import") then
    replaceAll (lit "from manim import *,") (lit "from manim import *")
      (subFromManimStar s9)
  else s9

/-- C5 counterexample — Tier 0 is not idempotent: on nested
`Surround(Surround(x))` with an `is not defined` error, the first
application rewrites only the outer call and the second application
rewrites the inner one, so re-applying to already-fixed code is not a
no-op. -/
theorem c5_counterexample :
    auto_fix_common_issues (lit "Surround(Surround(x))")
        (lit "NameError: name Surround is not defined") =
      lit "Circumscribe(Surround(x))" ∧
    auto_fix_common_issues
        (auto_fix_common_issues (lit "Surround(Surround(x))")
          (lit "NameError: name Surround is not defined"))
        (lit "NameError: name Surround is not defined") ≠
      auto_fix_common_issues (lit "Surround(Surround(x))")
        (lit "NameError: name Surround is not defined") := by
  constructor
  · decide
  · decide

/-- C5 (amended) — Tier 0 is deterministic and makes no model call (the
embedding is a pure function of the code and the error, with no model
oracle), and re-applying it is a no-op whenever the error message
contains none of the fingerprint phrases that trigger a rewrite; it is
*not* idempotent in general: the undefined-name (`Surround`) and
`Transform` rewrites re-fire on nested occurrences (see the
counterexample). -/
theorem c5_auto_fix_amended (code error : Str)
    (h1 : strContains error
      (lit "'ManimMLConfig' object has no attribute 'frame_x_radius'") = false)
    (h2 : strContains error
      (lit "'ManimMLConfig' object is not subscriptable") = false)
    (h3 : strContains error (lit "unexpected keyword argument 'buff'") = false)
    (h4 : strContains error (lit "invalid syntax") = false)
    (h5 : strContains error
      (lit "missing 1 required positional argument") = false)
    (h6 : strContains error
      (lit "The truth value of an array with more than one element is ambiguous")
      = false)
    (h7 : strContains error (lit "could not find") = false)
    (h8 : strContains error (lit "is not defined") = false)
    (h9 : strContains error (lit "cannot import name") = false)
    (h10 : strContains error
      (lit "'ManimMLConfig' object has no attribute 'frame_width'") = false)
    (h11 : strContains error
      (lit "'ManimMLConfig' object has no attribute 'frame_height'") = false)
    (h12 : strContains error
      (lit "object of type 'function' has no len()") = false) :
    auto_fix_common_issues code error = code ∧
    auto_fix_common_issues (auto_fix_common_issues code error) error =
      auto_fix_common_issues code error := by
  have hid : ∀ c : Str, auto_fix_common_issues c error = c := by
    intro c
    unfold auto_fix_common_issues
    simp [h1, h2, h3, h4, h5, h6, h7, h8, h9, h10, h11, h12]
  exact ⟨hid code, by rw [hid code, hid code]⟩

/-- Witness for C5 at a concrete error that triggers no rewrite. -/
theorem c5_auto_fix_witness :
    auto_fix_common_issues (lit "x = 1/0")
        (lit "ZeroDivisionError: division by zero") = lit "x = 1/0" ∧
    auto_fix_common_issues
        (auto_fix_common_issues (lit "x = 1/0")
          (lit "ZeroDivisionError: division by zero"))
        (lit "ZeroDivisionError: division by zero") =
      auto_fix_common_issues (lit "x = 1/0")
        (lit "ZeroDivisionError: division by zero") :=
  c5_auto_fix_amended (lit "x = 1/0") (lit "ZeroDivisionError: division by zero")
    (by decide) (by decide) (by decide) (by decide) (by decide) (by decide)
    (by decide) (by decide) (by decide) (by decide) (by decide) (by decide)

/-!
## Planner (C3, C10, and the planning half of C6)

Embeds `VideoPlanner` from `src/core/video_planner.py`.  The planner
model is an oracle of `Option Str` responses (the source checks for a
`None` response and raises `ValueError`).  The embedding fixes the
configuration `rag_integration = None` and `use_context_learning =
False` (both guarded by `if` in the source; the RAG integration module
is not among the sources), and prompt texts are not modelled: the oracle
consumes one response per model call regardless of the prompt.  The
concurrently-gathered per-scene tasks are executed in scene order; the
claims below concern only counts, results and exceptions, which do not
depend on the interleaving.
-/

/-- Planner state: its model oracle (`none` = the model returned `None`)
with call counter, and the filesystem. -/
structure PState where
  responses : List (Option Str)
  calls : Nat
  fs : Fs
deriving Repr, DecidableEq

/-- One `planner_model(...)` call. -/
def planner_call (st : PState) : Option Str × PState :=
  (st.responses.headD none,
   { st with responses := st.responses.tail, calls := st.calls + 1 })

/-- Write one file. -/
def pWrite (st : PState) (p : FsPath) (v : Str) : PState :=
  { st with fs := fsWrite st.fs p v }

/-- `re.search(r"(<TAG>.*?</TAG>)", s, re.DOTALL)` for a concrete pair of
tags: the match starts at the first opening tag and the lazy `.*?` stops
at the first closing tag after it; the capture includes both tags.  (If
the first opening tag is not followed by a closing tag, no later one
is either.) -/
def find_block (openT closeT : Str) (s : Str) : Option Str :=
  match strFind openT s with
  | none => none
  | some i =>
    match strFind closeT ((s.drop i).drop openT.length) with
    | none => none
    | some j => some (openT ++ ((s.drop i).drop openT.length).take j ++ closeT)

/-- `len(re.findall(r"<SCENE_(\d+)>[^<]", s))`: count the non-overlapping
scene markers — `<SCENE_`, one or more digits, `>`, then one character
other than `<` (consumed by the match). -/
def countSceneMarkersF : Nat → Str → Nat
  | 0, _ => 0
  | _ + 1, [] => 0
  | fuel + 1, c :: t =>
    let s := c :: t
    if strStartsWith s (lit "<SCENE_") then
      let ds := (s.drop 7).takeWhile Char.isDigit
      if !ds.isEmpty && strStartsWith (s.drop (7 + ds.length)) (lit ">") then
        match s.drop (7 + ds.length + 1) with
        | [] => countSceneMarkersF fuel t
        | d :: rest =>
          if d == '<' then countSceneMarkersF fuel t
          else 1 + countSceneMarkersF fuel rest
      else countSceneMarkersF fuel t
    else countSceneMarkersF fuel t

def countSceneMarkers (s : Str) : Nat := countSceneMarkersF s.length s

/-- `VideoPlanner._generate_scene_implementation_single`
(src/core/video_planner.py lines 207–402) in the
`rag_integration = None` configuration: save the trace id, then for each
of the three stages (storyboard, technical, narration) call the planner
model — a `None` response raises `ValueError` — extract the tagged block
with the raw response as fallback, save the sub-plan file, and
accumulate; finally save and return the combined implementation plan. -/
def scene_implementation_single (output_dir file_prefix : Str) (i : Nat)
    (trace_id : Str) (st : PState) : Except PyErr Str × PState :=
  let sceneDir : FsPath := [output_dir, file_prefix, lit "scene" ++ natStr i]
  let st0 := pWrite st (sceneDir ++ [lit "subplans", lit "scene_trace_id.txt"])
    trace_id
  match planner_call st0 with
  | (none, st1) => (Except.error PyErr.valueError, st1)
  | (some r1, st1) =>
    let vision := (find_block (lit "<SCENE_VISION_STORYBOARD_PLAN>")
      (lit "</SCENE_VISION_STORYBOARD_PLAN>") r1).getD r1
    let st2 := pWrite st1 (sceneDir ++ [lit "subplans",
      file_prefix ++ lit "_scene" ++ natStr i ++ lit "_vision_storyboard_plan.txt"])
      vision
    match planner_call st2 with
    | (none, st3) => (Except.error PyErr.valueError, st3)
    | (some r2, st3) =>
      let tech := (find_block (lit "<SCENE_TECHNICAL_IMPLEMENTATION_PLAN>")
        (lit "</SCENE_TECHNICAL_IMPLEMENTATION_PLAN>") r2).getD r2
      let st4 := pWrite st3 (sceneDir ++ [lit "subplans",
        file_prefix ++ lit "_scene" ++ natStr i ++
          lit "_technical_implementation_plan.txt"]) tech
      match planner_call st4 with
      | (none, st5) => (Except.error PyErr.valueError, st5)
      | (some r3, st5) =>
        let nar := (find_block (lit "<SCENE_ANIMATION_NARRATION_PLAN>")
          (lit "</SCENE_ANIMATION_NARRATION_PLAN>") r3).getD r3
        let st6 := pWrite st5 (sceneDir ++ [lit "subplans",
          file_prefix ++ lit "_scene" ++ natStr i ++
            lit "_animation_narration_plan.txt"]) nar
        let plan := vision ++ lit "\n\n" ++ tech ++ lit "\n\n" ++ nar ++ lit "\n\n"
        let st7 := pWrite st6 [output_dir, sanitize_sub file_prefix,
          lit "scene" ++ natStr i, lit "implementation_plan.txt"]
          (lit "# Scene " ++ natStr i ++ lit " Implementation Plan\n\n" ++ plan)
        (Except.ok plan, st7)

/-- The per-scene loop shared by the two implementation-plan generators:
for each scheduled scene number, extract its `<SCENE_i>…</SCENE_i>` block
(a missing block is the `AttributeError` of a failed
`re.search(...).group(1)`) and run the single-scene generator. -/
def impl_loop (output_dir file_prefix scene_outline : Str)
    (trace_ids : Nat → Str) : List Nat → PState → Except PyErr (List Str) × PState
  | [], st => (Except.ok [], st)
  | i :: rest, st =>
    match find_block (lit "<SCENE_" ++ natStr i ++ lit ">")
        (lit "</SCENE_" ++ natStr i ++ lit ">") scene_outline with
    | none => (Except.error PyErr.attributeError, st)
    | some bi =>
      match scene_implementation_single output_dir file_prefix i
          (trace_ids i) st with
      | (Except.error e, st') => (Except.error e, st')
      | (Except.ok p, st') =>
        match impl_loop output_dir file_prefix scene_outline trace_ids rest st' with
        | (Except.error e, st'') => (Except.error e, st'')
        | (Except.ok ps, st'') => (Except.ok (p :: ps), st'')

/-- `VideoPlanner.generate_scene_implementation` (lines 404–439):
`re.search(r"(<SCENE_OUTLINE>.*?</SCENE_OUTLINE>)", plan).group(1)` — a
missing wrapper raises `AttributeError` — then scene tasks are created
for `i in range(1, scene_number)`; the scheduled scene numbers are
`List.range' 1 (N − 1)`, i.e. scenes `1 … N−1`. -/
def generate_scene_implementation (output_dir topic plan : Str)
    (trace_ids : Nat → Str) (st : PState) : Except PyErr (List Str) × PState :=
  match find_block (lit "<SCENE_OUTLINE>") (lit "</SCENE_OUTLINE>") plan with
  | none => (Except.error PyErr.attributeError, st)
  | some scene_outline =>
    impl_loop output_dir (sanitize_topic topic) scene_outline trace_ids
      (List.range' 1 (countSceneMarkers scene_outline - 1)) st

/-- Modelled from the spec: `extract_xml` from `src/utils/utils.py`
(module absent from the sources) — "Output is extracted from a required
delimiting marker; if the marker is absent, the raw response is used as
a fallback" (spec §4.1), here for the `SCENE_OUTLINE` marker. -/
def extract_xml (plan : Str) : Str :=
  (find_block (lit "<SCENE_OUTLINE>") (lit "</SCENE_OUTLINE>") plan).getD plan

/-- `VideoPlanner.generate_scene_implementation_concurrently`
(lines 441–473): the outline is obtained by `extract_xml` (lenient
fallback), and scene tasks are created for `i + 1` with
`i in range(scene_number)`, i.e. scenes `1 … N`. -/
def generate_scene_implementation_concurrently (output_dir topic plan : Str)
    (trace_ids : Nat → Str) (st : PState) : Except PyErr (List Str) × PState :=
  impl_loop output_dir (sanitize_topic topic) (extract_xml plan) trace_ids
    (List.range' 1 (countSceneMarkers (extract_xml plan))) st

/-- C3 (amended) — a plan whose outline contains zero `<SCENE_n>` markers
does not raise `PlanningError` (no such exception exists in the
sources); both generators simply return the empty list, normally; and a
plan lacking the `<SCENE_OUTLINE>` wrapper makes
`generate_scene_implementation` raise `AttributeError` from the failed
regex match (the concurrent variant falls back to the raw plan). -/
theorem c3_zero_scenes_amended (output_dir topic plan : Str)
    (trace_ids : Nat → Str) (st : PState) :
    (∀ so, find_block (lit "<SCENE_OUTLINE>") (lit "</SCENE_OUTLINE>") plan =
        some so → countSceneMarkers so = 0 →
      generate_scene_implementation output_dir topic plan trace_ids st =
        (Except.ok [], st)) ∧
    (find_block (lit "<SCENE_OUTLINE>") (lit "</SCENE_OUTLINE>") plan = none →
      generate_scene_implementation output_dir topic plan trace_ids st =
        (Except.error PyErr.attributeError, st)) ∧
    (countSceneMarkers (extract_xml plan) = 0 →
      generate_scene_implementation_concurrently output_dir topic plan
        trace_ids st = (Except.ok [], st)) := by
  refine ⟨?_, ?_, ?_⟩
  · intro so hso hzero
    unfold generate_scene_implementation
    rw [hso]
    show impl_loop output_dir (sanitize_topic topic) so trace_ids
      (List.range' 1 (countSceneMarkers so - 1)) st = (Except.ok [], st)
    rw [hzero]
    rfl
  · intro h
    unfold generate_scene_implementation
    rw [h]
  · intro h
    unfold generate_scene_implementation_concurrently
    rw [h]
    rfl

/-- C3 counterexample — on a concrete plan with a wrapper but zero scene
markers, both generators return `Except.ok []`: planning does *not* fail
with a `PlanningError` (none exists in the code base), nor with any
exception at all. -/
theorem c3_counterexample :
    generate_scene_implementation (lit "o") (lit "t")
        (lit "<SCENE_OUTLINE>no scenes here</SCENE_OUTLINE>")
        (fun _ => lit "tid") ⟨[], 0, []⟩ = (Except.ok [], ⟨[], 0, []⟩) ∧
    generate_scene_implementation_concurrently (lit "o") (lit "t")
        (lit "<SCENE_OUTLINE>no scenes here</SCENE_OUTLINE>")
        (fun _ => lit "tid") ⟨[], 0, []⟩ = (Except.ok [], ⟨[], 0, []⟩) := by
  constructor
  · decide
  · decide

/-- Witness for C3 at concrete plans: a wrapped outline with zero
markers yields `ok []` from both generators, and a plan without the
wrapper yields `AttributeError` from the sequential generator. -/
theorem c3_zero_scenes_witness :
    generate_scene_implementation (lit "o") (lit "t")
        (lit "<SCENE_OUTLINE>x</SCENE_OUTLINE>") (fun _ => lit "id")
        ⟨[], 0, []⟩ = (Except.ok [], ⟨[], 0, []⟩) ∧
    generate_scene_implementation (lit "o") (lit "t") (lit "bare text")
        (fun _ => lit "id") ⟨[], 0, []⟩ =
      (Except.error PyErr.attributeError, ⟨[], 0, []⟩) ∧
    generate_scene_implementation_concurrently (lit "o") (lit "t")
        (lit "<SCENE_OUTLINE>x</SCENE_OUTLINE>") (fun _ => lit "id")
        ⟨[], 0, []⟩ = (Except.ok [], ⟨[], 0, []⟩) :=
  ⟨(c3_zero_scenes_amended (lit "o") (lit "t")
      (lit "<SCENE_OUTLINE>x</SCENE_OUTLINE>") (fun _ => lit "id")
      ⟨[], 0, []⟩).1 (lit "<SCENE_OUTLINE>x</SCENE_OUTLINE>")
      (by decide) (by decide),
   (c3_zero_scenes_amended (lit "o") (lit "t") (lit "bare text")
      (fun _ => lit "id") ⟨[], 0, []⟩).2.1 (by decide),
   (c3_zero_scenes_amended (lit "o") (lit "t")
      (lit "<SCENE_OUTLINE>x</SCENE_OUTLINE>") (fun _ => lit "id")
      ⟨[], 0, []⟩).2.2 (by decide)⟩

/-- C10 — the two implementation-plan generators do *not* cover the same
scenes: on a two-scene outline, `generate_scene_implementation` iterates
`range(1, scene_number)` and so schedules only scene 1 (returning 1
plan, skipping the last scene, contrary to its own docstring "Generate
detailed implementation plans for all scenes"), while the concurrent
variant schedules scenes 1 and 2 (returning 2 plans). -/
theorem c10_generators_disagree :
    (((generate_scene_implementation (lit "o") (lit "t")
        (lit "<SCENE_OUTLINE><SCENE_1>a</SCENE_1><SCENE_2>b</SCENE_2></SCENE_OUTLINE>")
        (fun _ => lit "tid")
        ⟨List.replicate 6 (some (lit "p")), 0, []⟩).1.toOption.getD []).length
      = 1) ∧
    (((generate_scene_implementation_concurrently (lit "o") (lit "t")
        (lit "<SCENE_OUTLINE><SCENE_1>a</SCENE_1><SCENE_2>b</SCENE_2></SCENE_OUTLINE>")
        (fun _ => lit "tid")
        ⟨List.replicate 6 (some (lit "p")), 0, []⟩).1.toOption.getD []).length
      = 2) := by
  constructor
  · decide
  · decide

/-!
## Warm-cache behaviour (C6)

The RAG query caches short-circuit (theorem below); the planning stages
do not — `_generate_scene_implementation_single` regenerates and
overwrites its stage files on every run (counterexample below).
-/

/-- C6 (amended) — warm-cache short-circuit holds for RAG query
generation: when the cache file exists, both query generators return the
parse of the cached bytes and leave the state untouched — no model call,
no filesystem write.  (It does not hold for the planning stages; see the
counterexample.) -/
theorem c6_rag_cache_short_circuit_amended
    (jsonLoads : Str → Option (List Str)) (jsonDumps : List Str → Str)
    (output_dir topic : Str) (scene_number : Nat) (st : CGState)
    (content : Str) (v : List Str) :
    (fsRead st.fs (rag_cache_path output_dir topic scene_number
        (lit "rag_queries_code.json")) = some content →
      jsonLoads content = some v →
      generate_rag_queries_code jsonLoads jsonDumps output_dir topic
        scene_number st = (Except.ok v, st)) ∧
    (fsRead st.fs (rag_cache_path output_dir topic scene_number
        (lit "rag_queries_error_fix.json")) = some content →
      jsonLoads content = some v →
      generate_rag_queries_error_fix jsonLoads jsonDumps output_dir topic
        scene_number st = (Except.ok v, st)) := by
  constructor
  · intro hc hv
    unfold generate_rag_queries_code
    rw [hc]
    simp only [hv]
  · intro hc hv
    unfold generate_rag_queries_error_fix
    rw [hc]
    simp only [hv]

/-- Witness for C6 at a concrete warm cache. -/
theorem c6_rag_cache_short_circuit_witness :
    generate_rag_queries_code (fun _ => some [lit "q"]) (fun _ => [])
        (lit "o") (lit "t") 1
        ⟨[], 0, [([lit "o", lit "t", lit "scene1", lit "rag_cache",
          lit "rag_queries_code.json"], lit "cached")], [], none⟩ =
      (Except.ok [lit "q"],
       ⟨[], 0, [([lit "o", lit "t", lit "scene1", lit "rag_cache",
         lit "rag_queries_code.json"], lit "cached")], [], none⟩) :=
  (c6_rag_cache_short_circuit_amended (fun _ => some [lit "q"]) (fun _ => [])
    (lit "o") (lit "t") 1
    ⟨[], 0, [([lit "o", lit "t", lit "scene1", lit "rag_cache",
      lit "rag_queries_code.json"], lit "cached")], [], none⟩
    (lit "cached") [lit "q"]).1 (by decide) rfl

/-- C6 counterexample — the planning stages have no warm-cache
short-circuit: with the scene's storyboard plan file already on disk
(content `OLD`), `_generate_scene_implementation_single` still makes its
three model calls and overwrites the file with the new response, so
re-running the stage neither skips the model nor returns the cached
bytes. -/
theorem c6_counterexample :
    (scene_implementation_single (lit "o") (lit "t") 1 (lit "id")
        ⟨[some (lit "R1"), some (lit "R2"), some (lit "R3")], 0,
         [([lit "o", lit "t", lit "scene1", lit "subplans",
            lit "t_scene1_vision_storyboard_plan.txt"], lit "OLD")]⟩).2.calls
      = 3 ∧
    fsRead (scene_implementation_single (lit "o") (lit "t") 1 (lit "id")
        ⟨[some (lit "R1"), some (lit "R2"), some (lit "R3")], 0,
         [([lit "o", lit "t", lit "scene1", lit "subplans",
            lit "t_scene1_vision_storyboard_plan.txt"], lit "OLD")]⟩).2.fs
      [lit "o", lit "t", lit "scene1", lit "subplans",
       lit "t_scene1_vision_storyboard_plan.txt"] = some (lit "R1") ∧
    lit "R1" ≠ lit "OLD" := by
  refine ⟨?_, ?_, ?_⟩
  · decide
  · decide
  · decide

/-!
## Repair: fix_code_errors and the store-on-success discipline (C1)

Embeds `CodeGenerator._infer_scene_type`, the *appwrite* variant of
`CodeGenerator.fix_code_errors`
(appwrite_functions/video_generation/src/core/code_generator.py lines
435–534), and the *main* variant together with
`CodeGenerator.store_successful_fix` / `clear_fix_metadata`
(src/core/code_generator.py lines 447–563 and 813–846).

Configuration fixed at `use_rag = False` (the vector-store module is not
among the sources; the branch only adds prompt context).  The memory
lookup `search_similar_fixes` only contributes prompt context and is not
modelled; prompt texts are not modelled.  In the appwrite variant the
memory backend (`src.core.agent_memory`, absent from the sources) is
modelled from the spec: `store_error_fix` persists one FixRecord — the
embedding appends it to `memWrites`.  In the main variant the whole
Tavily sub-procedure `_fix_error_with_tavily` (lines 565–673) is a
model/web-search interaction returning a fixed code string or `None`
(also `None` on any exception); its outcome is the `tavilyOutcome`
parameter and the theorems quantify over every possible outcome. -/

/-- Word lists and cascade of `CodeGenerator._infer_scene_type`
(identical in both files). -/
def infer_scene_type (scene_implementation : Str) : Str :=
  let text := strLower scene_implementation
  if [lit "graph", lit "plot", lit "chart", lit "axis",
      lit "coordinate"].any (strContains text) then lit "graph"
  else if [lit "formula", lit "equation", lit "math",
      lit "expression"].any (strContains text) then lit "formula"
  else if [lit "animate", lit "move", lit "transform",
      lit "transition"].any (strContains text) then lit "animation"
  else if [lit "text", lit "title", lit "label",
      lit "write"].any (strContains text) then lit "text"
  else if [lit "shape", lit "circle", lit "square",
      lit "rectangle"].any (strContains text) then lit "geometry"
  else if [lit "3d", lit "three", lit "dimensional", lit "cube",
      lit "sphere"].any (strContains text) then lit "3d"
  else lit "general"

/-- The appwrite variant of `CodeGenerator.fix_code_errors` (lines
435–534): try the Tier-0 deterministic rewrite first — if it changes the
code, *immediately* store the fix in memory (method `auto`) and return;
otherwise call the model, extract the fix (lazy fenced pattern, 10
attempts), and — when the extracted code differs from the original —
*immediately* store it (method `llm`). -/
def fix_code_errors_aw (useMemory : Bool)
    (implementation_plan code error topic : Str) (st : CGState) :
    Except PyErr Str × CGState :=
  let scene_type := infer_scene_type implementation_plan
  let fixed := auto_fix_common_issues code error
  if fixed != code then
    (Except.ok fixed,
     if useMemory then
       { st with memWrites := st.memWrites ++
           [⟨error, code, fixed, topic, scene_type, lit "auto"⟩] }
     else st)
  else
    match extract_code_with_retries CodePattern.pyLazy (model_call st).1 10
        (model_call st).2 with
    | (Except.error e, st2) => (Except.error e, st2)
    | (Except.ok fixed2, st2) =>
      (Except.ok fixed2,
       if useMemory && fixed2 != code then
         { st2 with memWrites := st2.memWrites ++
             [⟨error, code, fixed2, topic, scene_type, lit "llm"⟩] }
       else st2)

/-- The LLM fallback path of the main `fix_code_errors` (lines 535–563):
one model call, lazy fenced extraction with 10 attempts; a fix that
differs from the original records pending `_last_fix_metadata` (method
`llm`), an unchanged fix clears it.  Nothing is written to memory here. -/
def fix_error_llm_main (code error topic scene_type : Str) (st : CGState) :
    Except PyErr Str × CGState :=
  match extract_code_with_retries CodePattern.pyLazy (model_call st).1 10
      (model_call st).2 with
  | (Except.error e, st2) => (Except.error e, st2)
  | (Except.ok fixed, st2) =>
    if fixed != code then
      (Except.ok fixed,
       { st2 with pending := some ⟨error, code, fixed, topic, scene_type,
           lit "llm"⟩ })
    else (Except.ok fixed, { st2 with pending := none })

/-- The main `CodeGenerator.fix_code_errors` (src/core/code_generator.py
lines 447–563): when Tavily is available and its sub-procedure returns a
non-empty fix different from the code, record pending metadata (method
`tavily`) and return it; otherwise fall back to the LLM path.  No memory
write happens in either path. -/
def fix_code_errors_main (hasTavily : Bool) (tavilyOutcome : Option Str)
    (implementation_plan code error topic : Str) (st : CGState) :
    Except PyErr Str × CGState :=
  let scene_type := infer_scene_type implementation_plan
  match (if hasTavily then tavilyOutcome else none) with
  | some t =>
    if !t.isEmpty && t != code then
      (Except.ok t,
       { st with pending := some ⟨error, code, t, topic, scene_type,
           lit "tavily"⟩ })
    else fix_error_llm_main code error topic scene_type st
  | none => fix_error_llm_main code error topic scene_type st

/-- `CodeGenerator.store_successful_fix` (lines 813–836): called after a
*confirmed successful render*; with memory enabled and pending fix
metadata present, write that FixRecord and clear the metadata; otherwise
do nothing. -/
def store_successful_fix (useMemory : Bool) (st : CGState) : CGState :=
  match st.pending with
  | some m =>
    if useMemory then
      { st with memWrites := st.memWrites ++ [m], pending := none }
    else st
  | none => st

/-- `CodeGenerator.clear_fix_metadata` (lines 838–846): called when the
render failed; clears the pending fix metadata and writes nothing. -/
def clear_fix_metadata (st : CGState) : CGState := { st with pending := none }

/-- The caller protocol stated by the two methods' docstrings and the
spec: after the render that used the fixed code, call
`store_successful_fix` on success and `clear_fix_metadata` on failure. -/
def repair_cycle_store (useMemory render_ok : Bool) (st : CGState) : CGState :=
  if render_ok then store_successful_fix useMemory st
  else clear_fix_metadata st

lemma extract_code_with_retries_memWrites (pat : CodePattern) :
    ∀ (n : Nat) (response : Str) (st : CGState),
      (extract_code_with_retries pat response n st).2.memWrites = st.memWrites ∧
      (extract_code_with_retries pat response n st).2.pending = st.pending := by
  intro n
  induction n with
  | zero => intro response st; simp [extract_code_with_retries]
  | succ n ih =>
    intro response st
    unfold extract_code_with_retries
    match h : run_extract pat response with
    | some code => simp [h]
    | none =>
      simp only [h]
      by_cases hn : n = 0
      · simp [hn]
      · simp only [hn, if_false]
        exact ⟨((ih _ _).1.trans (by simp [model_call])),
               ((ih _ _).2.trans (by simp [model_call]))⟩

lemma fix_error_llm_main_pending (code error topic scene_type : Str)
    (st : CGState) (v : Str)
    (hv : (fix_error_llm_main code error topic scene_type st).1 = Except.ok v)
    (hne : v ≠ code) :
    ∃ m, (fix_error_llm_main code error topic scene_type st).2.pending =
        some m ∧ m.fixed_code = v ∧ m.original_code = code := by
  unfold fix_error_llm_main at hv ⊢
  revert hv
  rcases he : extract_code_with_retries CodePattern.pyLazy (model_call st).1 10
      (model_call st).2 with ⟨r, st2⟩
  cases r with
  | error e =>
    intro hv
    simp at hv
  | ok fixed =>
    intro hv
    by_cases hf : fixed != code
    · simp only [hf, if_true] at hv ⊢
      simp only [Except.ok.injEq] at hv
      exact ⟨_, rfl, hv, rfl⟩
    · simp only [Bool.not_eq_true] at hf
      simp only [hf, Bool.false_eq_true, if_false] at hv ⊢
      simp only [Except.ok.injEq] at hv
      simp only [bne_eq_false_iff_eq] at hf
      exact absurd (hv ▸ hf) hne

lemma fix_error_llm_main_memWrites (code error topic scene_type : Str)
    (st : CGState) :
    (fix_error_llm_main code error topic scene_type st).2.memWrites =
      st.memWrites := by
  unfold fix_error_llm_main
  have h := extract_code_with_retries_memWrites CodePattern.pyLazy 10
    (model_call st).1 (model_call st).2
  have hm : (model_call st).2.memWrites = st.memWrites := by simp [model_call]
  match he : extract_code_with_retries CodePattern.pyLazy (model_call st).1 10
      (model_call st).2 with
  | (Except.error e, st2) =>
    rw [he] at h
    simpa using h.1.trans hm
  | (Except.ok fixed, st2) =>
    rw [he] at h
    by_cases hf : fixed != code <;> simp [hf] <;> exact h.1.trans hm

/-- C1 (amended) — store-on-success holds for the *main* generator and
its render-cycle protocol, but not for the appwrite variant (see the
counterexample): (i) the main `fix_code_errors` itself never writes to
Pattern Memory, in any path; (ii) a fix that differs from the original
code always leaves pending fix metadata recording exactly that fix;
(iii) with memory enabled, `store_successful_fix` (success path) appends
exactly the pending record and clears it, and `clear_fix_metadata`
(failure path) writes nothing and clears it; (iv) over a full repair
cycle a FixRecord is written exactly when the render succeeded and a fix
was pending. -/
theorem c1_store_on_success_amended (hasTavily : Bool)
    (tavilyOutcome : Option Str) (implementation_plan code error topic : Str)
    (st : CGState) (useMemory render_ok : Bool) :
    ((fix_code_errors_main hasTavily tavilyOutcome implementation_plan code
        error topic st).2.memWrites = st.memWrites) ∧
    (∀ v, (fix_code_errors_main hasTavily tavilyOutcome implementation_plan
        code error topic st).1 = Except.ok v → v ≠ code →
      ∃ m, (fix_code_errors_main hasTavily tavilyOutcome implementation_plan
        code error topic st).2.pending = some m ∧ m.fixed_code = v ∧
        m.original_code = code) ∧
    (useMemory = true →
      store_successful_fix useMemory st =
        { st with memWrites := st.memWrites ++ st.pending.toList,
                  pending := none }) ∧
    (clear_fix_metadata st = { st with pending := none }) ∧
    (useMemory = true →
      (repair_cycle_store useMemory render_ok st).memWrites =
        st.memWrites ++ (if render_ok then st.pending.toList else [])) := by
  refine ⟨?_, ?_, ?_, rfl, ?_⟩
  · unfold fix_code_errors_main
    match (if hasTavily then tavilyOutcome else none) with
    | some t =>
      by_cases ht : !t.isEmpty && t != code
      · simp [ht]
      · simp only [ht, if_false]
        exact fix_error_llm_main_memWrites ..
    | none => exact fix_error_llm_main_memWrites ..
  · intro v hv hne
    unfold fix_code_errors_main at hv ⊢
    revert hv
    rcases htav : (if hasTavily = true then tavilyOutcome else none) with _ | t
    · intro hv
      exact fix_error_llm_main_pending _ _ _ _ _ _ hv hne
    · intro hv
      by_cases ht : !t.isEmpty && t != code
      · simp only [ht, if_true] at hv ⊢
        simp only [Except.ok.injEq] at hv
        exact ⟨_, rfl, hv, rfl⟩
      · simp only [ht, if_false] at hv ⊢
        exact fix_error_llm_main_pending _ _ _ _ _ _ hv hne
  · intro hm
    obtain ⟨a, b, c, d, p⟩ := st
    unfold store_successful_fix
    cases p with
    | some m => simp [hm, Option.toList]
    | none => simp [Option.toList]
  · intro hm
    obtain ⟨a, b, c, d, p⟩ := st
    unfold repair_cycle_store
    by_cases hr : render_ok = true
    · rw [hr]
      simp only [if_true]
      unfold store_successful_fix
      cases p with
      | some m => simp [hm, Option.toList]
      | none => simp [Option.toList]
    · have hr' : render_ok = false := by revert hr; cases render_ok <;> simp
      rw [hr']
      simp [clear_fix_metadata]

/-- C1 counterexample — in the appwrite variant, a purely deterministic
Tier-0 rewrite *does* cause a FixRecord write, before any render: on the
config frame-radius error, `fix_code_errors` applies the Tier-0 rewrite
and immediately stores the fix with method `auto` while making zero
model calls (no render has happened — the function has no render
outcome at all). -/
theorem c1_counterexample :
    (fix_code_errors_aw true []
        (lit "FRAME_X_MIN = config[\"frame_x_radius\"]")
        (lit "'ManimMLConfig' object has no attribute 'frame_x_radius'")
        (lit "topic") ⟨[], 0, [], [], none⟩) =
      (Except.ok (lit "FRAME_X_MIN = -7.0"),
       ⟨[], 0, [],
        [⟨lit "'ManimMLConfig' object has no attribute 'frame_x_radius'",
          lit "FRAME_X_MIN = config[\"frame_x_radius\"]",
          lit "FRAME_X_MIN = -7.0", lit "topic", lit "general",
          lit "auto"⟩], none⟩) := by
  decide

/-- Witness for C1 at concrete states: the main fix path leaves memory
untouched and records the pending fix; a successful render then writes
exactly that record, while a failed render writes nothing. -/
theorem c1_store_on_success_witness :
    (fix_code_errors_main false none (lit "") (lit "bad code")
        (lit "some error") (lit "topic")
        ⟨[lit "```python\ngood code\n```"], 0, [], [], none⟩).2.memWrites
      = [] ∧
    store_successful_fix true
        ⟨[], 1, [], [], some ⟨lit "e", lit "o", lit "f", lit "t", lit "s",
          lit "llm"⟩⟩ =
      ⟨[], 1, [], [⟨lit "e", lit "o", lit "f", lit "t", lit "s", lit "llm"⟩],
       none⟩ ∧
    (repair_cycle_store true false
        ⟨[], 1, [], [], some ⟨lit "e", lit "o", lit "f", lit "t", lit "s",
          lit "llm"⟩⟩).memWrites = [] :=
  ⟨(c1_store_on_success_amended false none (lit "") (lit "bad code")
      (lit "some error") (lit "topic")
      ⟨[lit "```python\ngood code\n```"], 0, [], [], none⟩ true true).1,
   by
    have h := (c1_store_on_success_amended false none (lit "") (lit "x")
      (lit "e") (lit "t")
      ⟨[], 1, [], [], some ⟨lit "e", lit "o", lit "f", lit "t", lit "s",
        lit "llm"⟩⟩ true true).2.2.1 rfl
    simpa [Option.toList] using h,
   by
    have h := (c1_store_on_success_amended false none (lit "") (lit "x")
      (lit "e") (lit "t")
      ⟨[], 1, [], [], some ⟨lit "e", lit "o", lit "f", lit "t", lit "s",
        lit "llm"⟩⟩ true false).2.2.2.2 rfl
    simpa using h⟩

/-!
## Assembler: subtitle merge (C2)

Embeds the subtitle-combination loop of `VideoRenderer.combine_videos`
(src/core/video_renderer.py lines 349–398).  Each SRT file is modelled
as its parsed cue sequence (a well-formed SRT file is a sequence of
numbered cues); timestamps are rational seconds — `adjust_time` parses
`HH:MM:SS,mmm`, adds the running offset and re-renders, which on parsed
times is addition of the offset.  The loop state is faithful: a scene
whose subtitle entry is `None` is skipped with `continue` *before* the
`ffmpeg.probe` call, so its duration never joins the running offset; the
probed durations ride along with each video as oracle values.
-/

/-- One parsed SRT cue: start/end timestamps in seconds and text lines. -/
structure Cue where
  start : ℚ
  stop : ℚ
  text : List Str
deriving Repr, DecidableEq

/-- One cue of the merged output track. -/
structure MergedCue where
  idx : Nat
  start : ℚ
  stop : ℚ
  text : List Str
deriving Repr, DecidableEq

/-- Emit one scene's track: each cue shifted by the current offset and
numbered consecutively from `idx` (`subtitle_index` in the source). -/
def emitTrack : List Cue → ℚ → Nat → List MergedCue
  | [], _, _ => []
  | c :: r, off, idx =>
    ⟨idx, c.start + off, c.stop + off, c.text⟩ :: emitTrack r off (idx + 1)

/-- The subtitle loop of `combine_videos` (lines 352–398) over
`zip(scene_subtitles, scene_videos)`: `None` tracks are skipped (with
`continue`, before the probe), present tracks are emitted at the running
offset, and the probed duration is added *only after a present track*. -/
def combine_subtitles : List (Option (List Cue) × ℚ) → ℚ → Nat → List MergedCue
  | [], _, _ => []
  | (none, _) :: rest, off, idx => combine_subtitles rest off idx
  | (some t, d) :: rest, off, idx =>
    emitTrack t off idx ++ combine_subtitles rest (off + d) (idx + t.length)

/-- The subtitle merge of `VideoRenderer.combine_videos`: offset starts
at `0`, the index at `1`. -/
def combine_videos_subtitle_merge (scenes : List (Option (List Cue) × ℚ)) :
    List MergedCue :=
  combine_subtitles scenes 0 1

/-- The cumulative offset the merge applies to scene `j`: the sum of the
probed durations of the *earlier scenes that had a subtitle track*. -/
def prefixOffset (scenes : List (Option (List Cue) × ℚ)) (j : Nat) : ℚ :=
  ((scenes.take j).map fun s => if s.1.isSome then s.2 else (0 : ℚ)).sum

/-- The present tracks flattened in scene order, each cue paired with
the closed-form `prefixOffset` of its scene. -/
def specFlat (scenes : List (Option (List Cue) × ℚ)) : List (Cue × ℚ) :=
  ((List.range scenes.length).map fun j =>
    match (scenes.getD j (none, 0)).1 with
    | none => []
    | some t => t.map fun c => (c, prefixOffset scenes j)).flatten

/-- Specification-side merge (the amended spec's words, stated
independently of the loop): flatten the present tracks in scene order,
pair each cue with the closed-form `prefixOffset` of its scene, then
shift and renumber from 1. -/
def subtitle_merge_spec (scenes : List (Option (List Cue) × ℚ)) :
    List MergedCue :=
  (specFlat scenes).enum.map
    fun p => ⟨p.1 + 1, p.2.1.start + p.2.2, p.2.1.stop + p.2.2, p.2.1.text⟩

/-- Flatten the present tracks, pairing each cue with its scene's running
offset (intermediate form of the loop). -/
def flatShift : List (Option (List Cue) × ℚ) → ℚ → List (Cue × ℚ)
  | [], _ => []
  | (none, _) :: rest, off => flatShift rest off
  | (some t, d) :: rest, off =>
    (t.map fun c => (c, off)) ++ flatShift rest (off + d)

/-- Render a flat cue/offset list into merged cues numbered from `idx`. -/
def renderFrom : Nat → List (Cue × ℚ) → List MergedCue
  | _, [] => []
  | idx, p :: r =>
    ⟨idx, p.1.start + p.2, p.1.stop + p.2, p.1.text⟩ :: renderFrom (idx + 1) r

lemma renderFrom_append (a b : List (Cue × ℚ)) :
    ∀ idx, renderFrom idx (a ++ b) =
      renderFrom idx a ++ renderFrom (idx + a.length) b := by
  induction a with
  | nil => intro idx; simp [renderFrom]
  | cons p r ih =>
    intro idx
    simp only [List.cons_append, renderFrom, List.length_cons]
    rw [show r.append b = r ++ b from rfl, ih (idx + 1),
      show idx + 1 + r.length = idx + (r.length + 1) from by omega]

lemma emitTrack_eq_renderFrom (t : List Cue) :
    ∀ (off : ℚ) (idx : Nat),
      emitTrack t off idx = renderFrom idx (t.map fun c => (c, off)) := by
  induction t with
  | nil => intro off idx; rfl
  | cons c r ih => intro off idx; simp [emitTrack, renderFrom, ih]

lemma combine_subtitles_eq_renderFrom :
    ∀ (scenes : List (Option (List Cue) × ℚ)) (off : ℚ) (idx : Nat),
      combine_subtitles scenes off idx = renderFrom idx (flatShift scenes off) := by
  intro scenes
  induction scenes with
  | nil => intro off idx; rfl
  | cons s rest ih =>
    intro off idx
    match s with
    | (none, d) => simp [combine_subtitles, flatShift, ih]
    | (some t, d) =>
      simp only [combine_subtitles, flatShift, renderFrom_append,
        emitTrack_eq_renderFrom, ih, List.length_map]

lemma flatShift_shift :
    ∀ (scenes : List (Option (List Cue) × ℚ)) (off : ℚ),
      flatShift scenes off =
        (flatShift scenes 0).map fun p => (p.1, p.2 + off) := by
  intro scenes
  induction scenes with
  | nil => intro off; rfl
  | cons s rest ih =>
    intro off
    match s with
    | (none, d) =>
      simp only [flatShift]
      exact ih off
    | (some t, d) =>
      simp only [flatShift, List.map_append, List.map_map]
      congr 1
      · have h1 : ((fun p : Cue × ℚ => (p.1, p.2 + off)) ∘
            fun c : Cue => (c, (0 : ℚ))) = fun c : Cue => (c, off) := by
          funext c
          simp
        rw [h1]
      · rw [ih (off + d), ih (0 + d), List.map_map]
        have h2 : ((fun p : Cue × ℚ => (p.1, p.2 + off)) ∘
            fun p : Cue × ℚ => (p.1, p.2 + (0 + d))) =
            fun p : Cue × ℚ => (p.1, p.2 + (off + d)) := by
          funext p
          simp only [Function.comp_apply, Prod.mk.injEq]
          exact ⟨trivial, by ring⟩
        rw [h2]

lemma prefixOffset_zero (scenes : List (Option (List Cue) × ℚ)) :
    prefixOffset scenes 0 = 0 := rfl

lemma prefixOffset_cons (s : Option (List Cue) × ℚ)
    (rest : List (Option (List Cue) × ℚ)) (j : Nat) :
    prefixOffset (s :: rest) (j + 1) =
      (if s.1.isSome then s.2 else 0) + prefixOffset rest j := by
  simp [prefixOffset, List.take_succ_cons]

lemma flatShift_zero_eq_specFlat :
    ∀ scenes : List (Option (List Cue) × ℚ),
      flatShift scenes 0 = specFlat scenes := by
  intro scenes
  induction scenes with
  | nil => rfl
  | cons s rest ih =>
    match s with
    | (none, d) =>
      show flatShift rest 0 = specFlat ((none, d) :: rest)
      rw [ih]
      unfold specFlat
      simp only [List.length_cons, List.range_succ_eq_map, List.map_cons,
        List.map_map, List.flatten_cons]
      have h0 : (match (((none, d) :: rest).getD 0 (none, 0)).1 with
          | none => ([] : List (Cue × ℚ))
          | some t => t.map fun c => (c, prefixOffset ((none, d) :: rest) 0))
          = [] := rfl
      rw [h0, List.nil_append]
      congr 1
      apply List.map_congr_left
      intro j _
      simp only [Function.comp_apply, List.getD_cons_succ, prefixOffset_cons]
      simp
    | (some t, d) =>
      show (t.map fun c => (c, (0 : ℚ))) ++ flatShift rest (0 + d) =
        specFlat ((some t, d) :: rest)
      rw [flatShift_shift rest (0 + d), ih]
      unfold specFlat
      simp only [List.length_cons, List.range_succ_eq_map, List.map_cons,
        List.map_map, List.flatten_cons]
      congr 1
      rw [List.map_flatten, List.map_map]
      apply congrArg List.flatten
      apply List.map_congr_left
      intro j _
      simp only [Function.comp_apply, List.getD_cons_succ, prefixOffset_cons]
      cases h : (rest.getD j (none, 0)).1 with
      | none => simp
      | some u =>
        simp only [List.map_map]
        apply List.map_congr_left
        intro c _
        simp only [Function.comp_apply, prefixOffset_cons, Option.isSome_some,
          if_true, eq_self_iff_true, Prod.mk.injEq, true_and]
        ring

lemma renderFrom_eq_enumFrom :
    ∀ (l : List (Cue × ℚ)) (n : Nat),
      renderFrom (n + 1) l = (l.enumFrom n).map
        fun p => ⟨p.1 + 1, p.2.1.start + p.2.2, p.2.1.stop + p.2.2, p.2.1.text⟩ := by
  intro l
  induction l with
  | nil => intro n; rfl
  | cons p r ih =>
    intro n
    show (⟨n + 1, p.1.start + p.2, p.1.stop + p.2, p.1.text⟩ : MergedCue) ::
        renderFrom (n + 1 + 1) r = _
    rw [ih (n + 1)]
    rfl

lemma renderFrom_idx :
    ∀ (l : List (Cue × ℚ)) (idx : Nat),
      (renderFrom idx l).map (fun m : MergedCue => m.idx) =
        List.range' idx l.length ∧
      (renderFrom idx l).length = l.length := by
  intro l
  induction l with
  | nil => intro idx; exact ⟨rfl, rfl⟩
  | cons p r ih =>
    intro idx
    refine ⟨?_, ?_⟩
    · show idx :: (renderFrom (idx + 1) r).map (fun m : MergedCue => m.idx) = _
      rw [(ih (idx + 1)).1]
      rfl
    · show (renderFrom (idx + 1) r).length + 1 = r.length + 1
      rw [(ih (idx + 1)).2]

lemma emitTrack_mem (t : List Cue) :
    ∀ (off : ℚ) (idx : Nat) (m : MergedCue), m ∈ emitTrack t off idx →
      ∃ c ∈ t, m.start = c.start + off := by
  induction t with
  | nil => intro off idx m h; simp [emitTrack] at h
  | cons c r ih =>
    intro off idx m h
    rcases List.mem_cons.mp h with h | h
    · exact ⟨c, List.mem_cons_self .., by rw [h]⟩
    · obtain ⟨c', hc', he⟩ := ih off (idx + 1) m h
      exact ⟨c', List.mem_cons_of_mem _ hc', he⟩

lemma emitTrack_chain (t : List Cue) :
    ∀ (off : ℚ) (idx : Nat),
      List.Chain' (fun a b : Cue => a.start ≤ b.start) t →
      List.Chain' (fun a b : MergedCue => a.start ≤ b.start)
        (emitTrack t off idx) := by
  induction t with
  | nil => intro off idx _; simp [emitTrack]
  | cons c r ih =>
    intro off idx h
    cases r with
    | nil => simp [emitTrack]
    | cons c' r' =>
      rw [List.chain'_cons] at h
      show List.Chain' _ (⟨idx, c.start + off, c.stop + off, c.text⟩ ::
        ⟨idx + 1, c'.start + off, c'.stop + off, c'.text⟩ ::
          emitTrack r' off (idx + 1 + 1))
      rw [List.chain'_cons]
      exact ⟨by simpa using h.1, ih off (idx + 1) h.2⟩

/-- The main monotonicity invariant of the merge loop: with non-negative
durations and well-formed tracks (cue starts non-decreasing,
non-negative and bounded by the scene's duration), the merged cue starts
are non-decreasing, and every merged start is at least the running
offset. -/
lemma combine_subtitles_mono :
    ∀ (scenes : List (Option (List Cue) × ℚ)) (off : ℚ) (idx : Nat),
      (∀ s ∈ scenes, 0 ≤ s.2) →
      (∀ s ∈ scenes, ∀ t, s.1 = some t →
        List.Chain' (fun a b : Cue => a.start ≤ b.start) t ∧
        ∀ c ∈ t, 0 ≤ c.start ∧ c.start ≤ s.2) →
      List.Chain' (fun a b : MergedCue => a.start ≤ b.start)
        (combine_subtitles scenes off idx) ∧
      ∀ m ∈ combine_subtitles scenes off idx, off ≤ m.start := by
  intro scenes
  induction scenes with
  | nil => intro off idx _ _; exact ⟨by simp [combine_subtitles], by simp [combine_subtitles]⟩
  | cons s rest ih =>
    intro off idx hd ht
    have hd' : ∀ s ∈ rest, 0 ≤ s.2 := fun x hx => hd x (List.mem_cons_of_mem _ hx)
    have ht' : ∀ s ∈ rest, ∀ t, s.1 = some t →
        List.Chain' (fun a b : Cue => a.start ≤ b.start) t ∧
        ∀ c ∈ t, 0 ≤ c.start ∧ c.start ≤ s.2 :=
      fun x hx => ht x (List.mem_cons_of_mem _ hx)
    match s with
    | (none, d) =>
      show List.Chain' _ (combine_subtitles rest off idx) ∧
        ∀ m ∈ combine_subtitles rest off idx, off ≤ m.start
      exact ih off idx hd' ht'
    | (some t, d) =>
      have hdd : (0 : ℚ) ≤ d := hd (some t, d) (List.mem_cons_self ..)
      have htt := ht (some t, d) (List.mem_cons_self ..) t rfl
      have hrest := ih (off + d) (idx + t.length) hd' ht'
      show List.Chain' _ (emitTrack t off idx ++
          combine_subtitles rest (off + d) (idx + t.length)) ∧
        ∀ m ∈ emitTrack t off idx ++
          combine_subtitles rest (off + d) (idx + t.length), off ≤ m.start
      constructor
      · refine List.Chain'.append (emitTrack_chain t off idx htt.1) hrest.1 ?_
        intro x hx y hy
        obtain ⟨c, hc, he⟩ := emitTrack_mem t off idx x
          (List.mem_of_mem_getLast? hx)
        have h1 : x.start ≤ off + d := by
          rw [he]
          have := (htt.2 c hc).2
          linarith
        have h2 : off + d ≤ y.start :=
          hrest.2 y (List.mem_of_mem_head? hy)
        exact le_trans h1 h2
      · intro m hm
        rcases List.mem_append.mp hm with h | h
        · obtain ⟨c, hc, he⟩ := emitTrack_mem t off idx m h
          have := (htt.2 c hc).1
          rw [he]
          linarith
        · have := hrest.2 m h
          linarith

/-- C2 (amended) — subtitle merge: (i) the merged track equals the
independent specification `subtitle_merge_spec`: the present tracks
flattened in scene order, each cue's start and end shifted by the
cumulative probed duration of the *earlier scenes that had a subtitle
track* (a scene whose subtitle file is missing is skipped before the
probe, so its duration never enters the offset — this corrects the
claim, see the counterexample), renumbered from 1; (ii) the merged cue
indices are exactly `1, 2, …`; (iii) when durations are non-negative and
each track is well-formed (starts non-decreasing, non-negative, and at
most the scene's duration) the merged start times are non-decreasing
across the whole track. -/
theorem c2_subtitle_merge_amended (scenes : List (Option (List Cue) × ℚ)) :
    combine_videos_subtitle_merge scenes = subtitle_merge_spec scenes ∧
    (combine_videos_subtitle_merge scenes).map (fun m : MergedCue => m.idx) =
      List.range' 1 (combine_videos_subtitle_merge scenes).length ∧
    ((∀ s ∈ scenes, 0 ≤ s.2) →
      (∀ s ∈ scenes,
        match s.1 with
        | none => True
        | some t =>
          List.Chain' (fun a b : Cue => a.start ≤ b.start) t ∧
          ∀ c ∈ t, 0 ≤ c.start ∧ c.start ≤ s.2) →
      List.Chain' (fun a b : MergedCue => a.start ≤ b.start)
        (combine_videos_subtitle_merge scenes)) := by
  refine ⟨?_, ?_, ?_⟩
  · show combine_subtitles scenes 0 1 = subtitle_merge_spec scenes
    rw [combine_subtitles_eq_renderFrom, flatShift_zero_eq_specFlat,
      show (1 : Nat) = 0 + 1 from rfl, renderFrom_eq_enumFrom]
    rfl
  · have e : combine_videos_subtitle_merge scenes =
        renderFrom 1 (flatShift scenes 0) :=
      combine_subtitles_eq_renderFrom scenes 0 1
    rw [e, (renderFrom_idx (flatShift scenes 0) 1).1,
      (renderFrom_idx (flatShift scenes 0) 1).2]
  · intro hd ht
    refine (combine_subtitles_mono scenes 0 1 hd ?_).1
    intro s hs t hst
    have := ht s hs
    rw [hst] at this
    exact this

/-- C2 counterexample — the claim's offset ("cumulative probed duration
of all previously concatenated scene videos") is wrong when an earlier
scene has no subtitle file: with scene 1 track-less (duration 5) and
scene 2 holding one cue at 0–1 s, the merged cue keeps start 0, not the
claimed 5, because the `continue` skips the probe and scene 1's duration
never joins the offset. -/
theorem c2_counterexample :
    combine_videos_subtitle_merge [(none, 5), (some [⟨0, 1, []⟩], 7)] =
      [⟨1, 0, 1, []⟩] ∧
    ¬ (⟨1, 0, 1, []⟩ : MergedCue).start = 0 + 5 := by
  constructor
  · show combine_subtitles _ 0 1 = _
    simp [combine_subtitles, emitTrack]
  · norm_num

/-- Witness for C2 at a concrete three-scene input (middle scene without
subtitles) satisfying the well-formedness hypotheses. -/
theorem c2_subtitle_merge_witness :
    combine_videos_subtitle_merge
        [(some [⟨0, 2, []⟩, ⟨3, 4, []⟩], 5), (none, 2), (some [⟨1, 2, []⟩], 4)] =
      subtitle_merge_spec
        [(some [⟨0, 2, []⟩, ⟨3, 4, []⟩], 5), (none, 2), (some [⟨1, 2, []⟩], 4)] ∧
    List.Chain' (fun a b : MergedCue => a.start ≤ b.start)
      (combine_videos_subtitle_merge
        [(some [⟨0, 2, []⟩, ⟨3, 4, []⟩], 5), (none, 2), (some [⟨1, 2, []⟩], 4)]) :=
  ⟨(c2_subtitle_merge_amended _).1,
   (c2_subtitle_merge_amended
     [(some [⟨0, 2, []⟩, ⟨3, 4, []⟩], 5), (none, 2), (some [⟨1, 2, []⟩], 4)]).2.2
     (by norm_num) (by norm_num [List.chain'_cons])⟩

end ManimAgent
